import Mathlib

/-!
Verification of the untrusted-data ingestion and validation pipeline of the
visual-flow repository (src/services/ai.ts and src/types/graph.ts).

The embedding models JavaScript runtime values reaching `validateGraphData`
(anything `JSON.parse` may produce, plus `undefined` arising from property
access), the validator itself, the dummy-data template registry, the generic
fallback generator, the ingestion facade `fetchGraphData`, and the external
response handler `parseGraphDataResponse` together with a JSON parser standing
for `JSON.parse`.

Numbers are modelled as exact rationals (`Rat`); the numeric facts proved here
(range membership of literal constants and of `70 + r*20` / `40 + r*30` for
`r ∈ [0,1)`) are exact in binary floating point as well, so nothing proved
depends on rounding behaviour.
-/

namespace VisualFlow

/-- Runtime value model: everything `JSON.parse` can return, plus `undefined`
which arises from property access on objects lacking the key (and on
primitives). Object fields are kept in insertion order with unique keys, as
`JSON.parse` produces (later duplicate keys in the raw text overwrite). -/
inductive JValue where
  | jundefined
  | jnull
  | jbool (b : Bool)
  | jnum (q : Rat)
  | jstr (s : String)
  | jarr (elems : List JValue)
  | jobj (fields : List (String × JValue))

/-- JavaScript truthiness of a value (no NaN can arise from JSON). -/
def truthy : JValue → Bool
  | .jundefined => false
  | .jnull => false
  | .jbool b => b
  | .jnum q => q != 0
  | .jstr s => s != ""
  | .jarr _ => true
  | .jobj _ => true

/-- Errors thrown by `validateGraphData` (each constructor corresponds to one
`throw new Error(...)` site, carrying the data interpolated into the message),
plus `typeError` modelling the TypeError JavaScript raises when a property is
read off `null`/`undefined`. -/
inductive VError where
  | typeError
  | missingNodes
  | missingLinks
  | emptyNodes
  | nodeMissingId
  | nodeMissingName (id : String)
  | nodeBadVal (id : String)
  | nodeMissingCategory (id : String)
  | duplicateNodeId (id : String)
  | linkEndpointMissing
  | linkSourceNotFound (sourceId : JValue)
  | linkTargetNotFound (targetId : JValue)

/-- JavaScript property access `v[k]`: a TypeError on `null`/`undefined`,
the field value (or `undefined`) on objects, `undefined` on other values. -/
def jsGet (v : JValue) (k : String) : Except VError JValue :=
  match v with
  | .jundefined => .error .typeError
  | .jnull => .error .typeError
  | .jobj fields =>
    match fields.lookup k with
    | some w => .ok w
    | none => .ok .jundefined
  | _ => .ok .jundefined

/-- Membership test of `new Set<string>()` (`nodeIds.has(x)`): SameValueZero
with only strings stored, so any non-string argument misses. -/
def setHasStr (ids : List String) : JValue → Bool
  | .jstr s => ids.contains s
  | _ => false

/-- Field checks of one node, in source order: id, name, val, category
(`validateGraphData`, node loop body before the duplicate check). Returns the
node's id on success. -/
def checkNodeFields (node : JValue) : Except VError String :=
  match jsGet node "id" with
  | .error e => .error e
  | .ok (.jstr id) =>
    if id = "" then .error .nodeMissingId
    else
      match jsGet node "name" with
      | .error e => .error e
      | .ok (.jstr name) =>
        if name = "" then .error (.nodeMissingName id)
        else
          match jsGet node "val" with
          | .error e => .error e
          | .ok (.jnum q) =>
            if q < 0 ∨ 100 < q then .error (.nodeBadVal id)
            else
              match jsGet node "category" with
              | .error e => .error e
              | .ok (.jstr cat) =>
                if cat = "" then .error (.nodeMissingCategory id)
                else .ok id
              | .ok _ => .error (.nodeMissingCategory id)
          | .ok _ => .error (.nodeBadVal id)
      | .ok _ => .error (.nodeMissingName id)
  | .ok _ => .error .nodeMissingId

/-- The node loop of `validateGraphData`: per-node field checks followed by
the duplicate-id check against the accumulated id set. Returns the final id
set (a snoc-free accumulation; only membership matters). -/
def checkNodes (seen : List String) : List JValue → Except VError (List String)
  | [] => .ok seen
  | node :: rest =>
    match checkNodeFields node with
    | .error e => .error e
    | .ok id =>
      if seen.contains id then .error (.duplicateNodeId id)
      else checkNodes (id :: seen) rest

/-- Endpoint resolution of `validateGraphData`'s link loop:
`typeof link.source === 'string' ? link.source : link.source.id`. -/
def resolveEndpoint (link : JValue) (k : String) : Except VError JValue :=
  match jsGet link k with
  | .error e => .error e
  | .ok (.jstr s) => .ok (.jstr s)
  | .ok other => jsGet other "id"

/-- The link loop of `validateGraphData`. -/
def checkLinks (ids : List String) : List JValue → Except VError Unit
  | [] => .ok ()
  | link :: rest =>
    match resolveEndpoint link "source" with
    | .error e => .error e
    | .ok sv =>
      match resolveEndpoint link "target" with
      | .error e => .error e
      | .ok tv =>
        if ¬ truthy sv ∨ ¬ truthy tv then .error .linkEndpointMissing
        else if ¬ setHasStr ids sv then .error (.linkSourceNotFound sv)
        else if ¬ setHasStr ids tv then .error (.linkTargetNotFound tv)
        else checkLinks ids rest

/-- Embedding of `validateGraphData` (src/services/ai.ts): container checks on
`nodes` and `links` (truthiness plus `Array.isArray`, which together accept
exactly arrays), the non-empty check, the node loop, the link loop. Success is
`.ok ()` (the source returns `true`). -/
def validateGraphData (data : JValue) : Except VError Unit :=
  match jsGet data "nodes" with
  | .error e => .error e
  | .ok (.jarr nodes) =>
    match jsGet data "links" with
    | .error e => .error e
    | .ok (.jarr links) =>
      if nodes.length = 0 then .error .emptyNodes
      else
        match checkNodes [] nodes with
        | .error e => .error e
        | .ok ids => checkLinks ids links
    | .ok _ => .error .missingLinks
  | .ok _ => .error .missingNodes

/-- Typed node shape (`GraphNode`, src/types/graph.ts). `color`/`metadata`
are absent from every value the pipeline constructs and never inspected. -/
structure GraphNode where
  id : String
  name : String
  val : Rat
  category : String
  description : Option String := none

/-- A link endpoint: bare node-id string or embedded node object
(`source: string | GraphNode`). -/
inductive LinkEnd where
  | byId (s : String)
  | byNode (n : GraphNode)

/-- Typed link shape (`GraphLink`, src/types/graph.ts). `value` and `label`
are optional and arbitrary runtime values as far as the validator is
concerned, so they are kept as raw `JValue`s. -/
structure GraphLink where
  source : LinkEnd
  target : LinkEnd
  value : Option JValue := none
  label : Option JValue := none

/-- Typed graph aggregate (`GraphData`, src/types/graph.ts). -/
structure GraphData where
  nodes : List GraphNode
  links : List GraphLink

/-- The node id an endpoint resolves to. -/
def LinkEnd.endId : LinkEnd → String
  | .byId s => s
  | .byNode n => n.id

/-- Runtime value of a typed node. -/
def GraphNode.toJ (n : GraphNode) : JValue :=
  .jobj ([("id", .jstr n.id), ("name", .jstr n.name), ("val", .jnum n.val),
          ("category", .jstr n.category)] ++
    (match n.description with
     | some d => [("description", .jstr d)]
     | none => []))

/-- Runtime value of a link endpoint. -/
def LinkEnd.toJ : LinkEnd → JValue
  | .byId s => .jstr s
  | .byNode n => n.toJ

/-- Runtime value of a typed link. -/
def GraphLink.toJ (l : GraphLink) : JValue :=
  .jobj ([("source", l.source.toJ), ("target", l.target.toJ)] ++
    (match l.value with
     | some v => [("value", v)]
     | none => []) ++
    (match l.label with
     | some v => [("label", v)]
     | none => []))

/-- Runtime value of a typed graph. -/
def GraphData.toJ (g : GraphData) : JValue :=
  .jobj [("nodes", .jarr (g.nodes.map GraphNode.toJ)),
         ("links", .jarr (g.links.map GraphLink.toJ))]

/-- Replacement of `/\s+/g` by `"-"`: every maximal run of whitespace becomes
a single hyphen. The flag records whether the previous character was part of
a whitespace run already replaced. -/
def collapseWsAux : Bool → List Char → List Char
  | _, [] => []
  | prevWs, c :: rest =>
    if c.isWhitespace then
      (if prevWs then [] else ['-']) ++ collapseWsAux true rest
    else c :: collapseWsAux false rest

/-- The normalization expression `topic.toLowerCase().replace(/\s+/g, '-')`,
written identically at its two use sites (`fetchGraphData` line 889 and
`generateGenericGraphData` line 913). Lowercasing is modelled per character
(ASCII, which covers every template key; it preserves string length, which is
all the non-ASCII reasoning below relies on). -/
def normalizeTopic (topic : String) : String :=
  ⟨collapseWsAux false (topic.data.map Char.toLower)⟩

/-- The fixed `primaryConcepts` list of `generateGenericGraphData`. -/
def primaryConcepts : List String :=
  ["Fundamentals", "Core Concepts", "Applications",
   "Tools & Resources", "Advanced Topics", "Best Practices"]

/-- The three sub-concept nodes and links produced for one primary concept
(the inner `for (let i = 0; i < 3; i++)` loop). `counter` is `nodeCounter`
after the concept node was created; `rand k` stands for the value of the k-th
`Math.random()` call overall, which coincides with the value `nodeCounter`
held when that call was made. -/
def genSubConcepts (centralId concept conceptId : String) (rand : Nat → Rat)
    (counter : Nat) : List GraphNode × List GraphLink :=
  ((List.range 3).map fun i =>
      { id := centralId ++ ("-sub-" ++ toString (counter + i))
        name := concept ++ " Detail " ++ toString (i + 1)
        val := 40 + rand (counter + i) * 30
        category := "concept"
        description := some ("Specific aspect of " ++ concept) },
   (List.range 3).map fun i =>
      { source := .byId conceptId
        target := .byId (centralId ++ ("-sub-" ++ toString (counter + i)))
        value := some (.jnum 10)
        label := some (.jstr "includes") })

/-- The outer loop of `generateGenericGraphData` over `primaryConcepts`,
threading `nodeCounter`. Output order matches the source's `push` order:
per concept, the concept node then its three sub-concept nodes; per concept,
the root link then the three sub-concept links. -/
def genConcepts (centralId topic : String) (rand : Nat → Rat) :
    List String → Nat → List GraphNode × List GraphLink
  | [], _ => ([], [])
  | concept :: rest, counter =>
    let conceptId := centralId ++ ("-concept-" ++ toString counter)
    let conceptNode : GraphNode :=
      { id := conceptId
        name := concept
        val := 70 + rand counter * 20
        category := "concept"
        description := some (concept ++ " related to " ++ topic) }
    let rootLink : GraphLink :=
      { source := .byId centralId
        target := .byId conceptId
        value := some (.jnum 12)
        label := some (.jstr "includes") }
    let (subNodes, subLinks) := genSubConcepts centralId concept conceptId rand (counter + 1)
    let (restNodes, restLinks) := genConcepts centralId topic rand rest (counter + 4)
    (conceptNode :: subNodes ++ restNodes, rootLink :: subLinks ++ restLinks)

/-- Embedding of `generateGenericGraphData` (src/services/ai.ts lines
912-980). `rand` supplies the successive `Math.random()` results. -/
def generateGenericGraphData (topic : String) (rand : Nat → Rat) : GraphData :=
  let centralId := normalizeTopic topic
  let (conceptNodes, conceptLinks) := genConcepts centralId topic rand primaryConcepts 0
  { nodes :=
      { id := centralId
        name := topic
        val := 100
        category := "topic"
        description := some ("Comprehensive knowledge graph for " ++ topic) } :: conceptNodes
    links := conceptLinks }

/-- Embedding of the `DUMMY_DATA_TEMPLATES['machine-learning']` constructor's output. -/
def machineLearningTemplate : GraphData :=
  { nodes := [
      { id := "machine-learning", name := "Machine Learning", val := 100,
        category := "topic", description := some "Computational field enabling systems to learn from data and make predictions" },
      { id := "supervised-learning", name := "Supervised Learning", val := 85,
        category := "concept", description := some "Training algorithms using labeled examples to predict outcomes" },
      { id := "unsupervised-learning", name := "Unsupervised Learning", val := 80,
        category := "concept", description := some "Finding patterns in unlabeled data without predefined targets" },
      { id := "neural-networks", name := "Neural Networks", val := 90,
        category := "concept", description := some "Interconnected layers of nodes inspired by biological neurons" },
      { id := "deep-learning", name := "Deep Learning", val := 88,
        category := "concept", description := some "Using multi-layer neural networks for complex pattern recognition" },
      { id := "reinforcement-learning", name := "Reinforcement Learning", val := 82,
        category := "concept", description := some "Training agents to make sequential decisions through reward systems" },
      { id := "nlp", name := "Natural Language Processing", val := 78,
        category := "concept", description := some "Techniques for machines to understand and generate human language" },
      { id := "regression", name := "Regression", val := 65,
        category := "skill", description := some "Predicting continuous numerical values from input features" },
      { id := "classification", name := "Classification", val := 70,
        category := "skill", description := some "Categorizing data into predefined discrete classes or labels" },
      { id := "decision-trees", name := "Decision Trees", val := 60,
        category := "concept", description := some "Tree-structured models for making decisions based on feature splits" },
      { id := "svm", name := "Support Vector Machines", val := 62,
        category := "skill", description := some "Finding optimal hyperplanes to separate classes in high dimensions" },
      { id := "clustering", name := "Clustering", val := 68,
        category := "skill", description := some "Grouping similar data points into clusters based on similarity metrics" },
      { id := "dimensionality-reduction", name := "Dimensionality Reduction", val := 64,
        category := "skill", description := some "Reducing data features while preserving important information" },
      { id := "pca", name := "Principal Component Analysis", val := 58,
        category := "concept", description := some "Statistical technique for linear dimensionality reduction" },
      { id := "anomaly-detection", name := "Anomaly Detection", val := 61,
        category := "skill", description := some "Identifying unusual patterns or outliers in datasets" },
      { id := "convolutional-networks", name := "Convolutional Networks", val := 75,
        category := "concept", description := some "Neural networks using convolutional layers for image processing" },
      { id := "recurrent-networks", name := "Recurrent Networks", val := 72,
        category := "concept", description := some "Neural networks with feedback connections for sequential data" },
      { id := "backpropagation", name := "Backpropagation", val := 68,
        category := "skill", description := some "Algorithm for computing gradients in neural network training" },
      { id := "activation-functions", name := "Activation Functions", val := 55,
        category := "concept", description := some "Non-linear functions introducing expressiveness to neural networks" },
      { id := "transformers", name := "Transformers", val := 88,
        category := "concept", description := some "Architecture using attention mechanisms for sequence processing" },
      { id := "attention-mechanisms", name := "Attention Mechanisms", val := 80,
        category := "skill", description := some "Allowing models to focus on relevant parts of input data" },
      { id := "gpu-computing", name := "GPU Computing", val := 70,
        category := "skill", description := some "Leveraging graphics processors for accelerating computations" },
      { id := "batch-normalization", name := "Batch Normalization", val := 58,
        category := "concept", description := some "Technique stabilizing training and improving convergence" },
      { id := "q-learning", name := "Q-Learning", val := 68,
        category := "skill", description := some "Model-free algorithm for learning optimal action values" },
      { id := "policy-gradient", name := "Policy Gradient", val := 65,
        category := "skill", description := some "Methods directly optimizing the policy function" },
      { id := "markov-decisions", name := "Markov Decision Process", val := 62,
        category := "concept", description := some "Mathematical framework for sequential decision making" },
      { id := "word-embeddings", name := "Word Embeddings", val := 72,
        category := "skill", description := some "Representing words as dense vectors in continuous space" },
      { id := "language-models", name := "Language Models", val := 80,
        category := "concept", description := some "Models predicting probability distributions over text sequences" },
      { id := "tokenization", name := "Tokenization", val := 55,
        category := "skill", description := some "Breaking text into meaningful units for processing" },
      { id := "yann-lecun", name := "Yann LeCun", val := 75,
        category := "person", description := some "Pioneer in convolutional neural networks and deep learning" },
      { id := "yoshua-bengio", name := "Yoshua Bengio", val := 73,
        category := "person", description := some "Leading researcher in deep learning and neural networks" },
      { id := "geoffrey-hinton", name := "Geoffrey Hinton", val := 76,
        category := "person", description := some "Pioneering work in backpropagation and neural networks" }
    ],
    links := [
      { source := .byId "machine-learning", target := .byId "supervised-learning",
        value := some (.jnum 15), label := some (.jstr "includes") },
      { source := .byId "machine-learning", target := .byId "unsupervised-learning",
        value := some (.jnum 15), label := some (.jstr "includes") },
      { source := .byId "machine-learning", target := .byId "neural-networks",
        value := some (.jnum 16), label := some (.jstr "uses") },
      { source := .byId "machine-learning", target := .byId "deep-learning",
        value := some (.jnum 14), label := some (.jstr "advances") },
      { source := .byId "machine-learning", target := .byId "reinforcement-learning",
        value := some (.jnum 12), label := some (.jstr "includes") },
      { source := .byId "machine-learning", target := .byId "nlp",
        value := some (.jnum 13), label := some (.jstr "applies-to") },
      { source := .byId "supervised-learning", target := .byId "regression",
        value := some (.jnum 12), label := some (.jstr "technique") },
      { source := .byId "supervised-learning", target := .byId "classification",
        value := some (.jnum 13), label := some (.jstr "technique") },
      { source := .byId "supervised-learning", target := .byId "decision-trees",
        value := some (.jnum 10), label := some (.jstr "algorithm") },
      { source := .byId "supervised-learning", target := .byId "svm",
        value := some (.jnum 11), label := some (.jstr "algorithm") },
      { source := .byId "unsupervised-learning", target := .byId "clustering",
        value := some (.jnum 12), label := some (.jstr "technique") },
      { source := .byId "unsupervised-learning", target := .byId "dimensionality-reduction",
        value := some (.jnum 11), label := some (.jstr "technique") },
      { source := .byId "unsupervised-learning", target := .byId "pca",
        value := some (.jnum 9), label := some (.jstr "algorithm") },
      { source := .byId "unsupervised-learning", target := .byId "anomaly-detection",
        value := some (.jnum 10), label := some (.jstr "technique") },
      { source := .byId "neural-networks", target := .byId "convolutional-networks",
        value := some (.jnum 13), label := some (.jstr "architecture") },
      { source := .byId "neural-networks", target := .byId "recurrent-networks",
        value := some (.jnum 13), label := some (.jstr "architecture") },
      { source := .byId "neural-networks", target := .byId "backpropagation",
        value := some (.jnum 14), label := some (.jstr "training-method") },
      { source := .byId "neural-networks", target := .byId "activation-functions",
        value := some (.jnum 11), label := some (.jstr "component") },
      { source := .byId "deep-learning", target := .byId "transformers",
        value := some (.jnum 14), label := some (.jstr "modern-architecture") },
      { source := .byId "deep-learning", target := .byId "attention-mechanisms",
        value := some (.jnum 13), label := some (.jstr "technique") },
      { source := .byId "deep-learning", target := .byId "gpu-computing",
        value := some (.jnum 12), label := some (.jstr "requires") },
      { source := .byId "deep-learning", target := .byId "batch-normalization",
        value := some (.jnum 10), label := some (.jstr "technique") },
      { source := .byId "reinforcement-learning", target := .byId "q-learning",
        value := some (.jnum 12), label := some (.jstr "algorithm") },
      { source := .byId "reinforcement-learning", target := .byId "policy-gradient",
        value := some (.jnum 11), label := some (.jstr "method") },
      { source := .byId "reinforcement-learning", target := .byId "markov-decisions",
        value := some (.jnum 12), label := some (.jstr "foundation") },
      { source := .byId "nlp", target := .byId "word-embeddings",
        value := some (.jnum 12), label := some (.jstr "technique") },
      { source := .byId "nlp", target := .byId "language-models",
        value := some (.jnum 14), label := some (.jstr "primary-approach") },
      { source := .byId "nlp", target := .byId "tokenization",
        value := some (.jnum 10), label := some (.jstr "preprocessing") },
      { source := .byId "neural-networks", target := .byId "deep-learning",
        value := some (.jnum 15), label := some (.jstr "foundation") },
      { source := .byId "convolutional-networks", target := .byId "deep-learning",
        value := some (.jnum 12), label := some (.jstr "breakthrough") },
      { source := .byId "transformers", target := .byId "attention-mechanisms",
        value := some (.jnum 14), label := some (.jstr "uses") },
      { source := .byId "transformers", target := .byId "nlp",
        value := some (.jnum 13), label := some (.jstr "powers") },
      { source := .byId "language-models", target := .byId "transformers",
        value := some (.jnum 12), label := some (.jstr "architecture") },
      { source := .byId "backpropagation", target := .byId "gradient-descent",
        value := some (.jnum 11), label := some (.jstr "enables") },
      { source := .byId "classification", target := .byId "convolutional-networks",
        value := some (.jnum 10), label := some (.jstr "task") },
      { source := .byId "yann-lecun", target := .byId "convolutional-networks",
        value := some (.jnum 14), label := some (.jstr "pioneered") },
      { source := .byId "yann-lecun", target := .byId "deep-learning",
        value := some (.jnum 12), label := some (.jstr "contributed-to") },
      { source := .byId "yoshua-bengio", target := .byId "deep-learning",
        value := some (.jnum 13), label := some (.jstr "advanced") },
      { source := .byId "yoshua-bengio", target := .byId "backpropagation",
        value := some (.jnum 11), label := some (.jstr "developed") },
      { source := .byId "geoffrey-hinton", target := .byId "backpropagation",
        value := some (.jnum 13), label := some (.jstr "pioneered") },
      { source := .byId "geoffrey-hinton", target := .byId "neural-networks",
        value := some (.jnum 12), label := some (.jstr "founded") }
    ] }

/-- Embedding of the `DUMMY_DATA_TEMPLATES['web-development']` constructor's output. -/
def webDevelopmentTemplate : GraphData :=
  { nodes := [
      { id := "web-development", name := "Web Development", val := 100,
        category := "topic", description := some "Creating interactive applications and websites for the internet" },
      { id := "frontend", name := "Frontend Development", val := 85,
        category := "concept", description := some "Building user interfaces and client-side applications" },
      { id := "backend", name := "Backend Development", val := 83,
        category := "concept", description := some "Server-side logic, databases, and business logic implementation" },
      { id := "devops", name := "DevOps", val := 75,
        category := "concept", description := some "Infrastructure, deployment, and operations automation" },
      { id := "mobile-web", name := "Mobile Web Development", val := 72,
        category := "concept", description := some "Building responsive and mobile-optimized web applications" },
      { id := "web-performance", name := "Web Performance", val := 70,
        category := "concept", description := some "Optimizing speed, efficiency, and user experience metrics" },
      { id := "security", name := "Web Security", val := 76,
        category := "concept", description := some "Protecting applications and users from vulnerabilities" },
      { id := "html-css", name := "HTML & CSS", val := 78,
        category := "skill", description := some "Markup and styling languages for web pages" },
      { id := "javascript", name := "JavaScript", val := 82,
        category := "skill", description := some "Primary programming language for client-side interactivity" },
      { id := "react", name := "React", val := 75,
        category := "concept", description := some "Library for building dynamic user interfaces with components" },
      { id := "vue", name := "Vue.js", val := 68,
        category := "concept", description := some "Progressive framework for building user interfaces" },
      { id := "typescript", name := "TypeScript", val := 72,
        category := "skill", description := some "Type-safe superset of JavaScript for large-scale projects" },
      { id := "nodejs", name := "Node.js", val := 80,
        category := "concept", description := some "JavaScript runtime for server-side development" },
      { id := "databases", name := "Databases", val := 77,
        category := "concept", description := some "Systems for storing and retrieving structured data" },
      { id := "rest-api", name := "REST APIs", val := 76,
        category := "skill", description := some "Standard architecture for building web service endpoints" },
      { id := "graphql", name := "GraphQL", val := 68,
        category := "concept", description := some "Query language for flexible API data fetching" },
      { id := "sql", name := "SQL", val := 74,
        category := "skill", description := some "Language for querying and managing relational databases" },
      { id := "docker", name := "Docker", val := 72,
        category := "concept", description := some "Containerization platform for application deployment" },
      { id := "kubernetes", name := "Kubernetes", val := 68,
        category := "concept", description := some "Orchestration system for managing containerized applications" },
      { id := "ci-cd", name := "CI/CD Pipelines", val := 70,
        category := "skill", description := some "Automated testing and deployment workflows" },
      { id := "responsive-design", name := "Responsive Design", val := 66,
        category := "skill", description := some "Adapting layouts to different screen sizes" },
      { id := "pwa", name := "Progressive Web Apps", val := 65,
        category := "concept", description := some "Web apps with app-like capabilities offline support" },
      { id := "optimization", name := "Performance Optimization", val := 68,
        category := "skill", description := some "Techniques for improving application speed and efficiency" },
      { id := "caching", name := "Caching Strategies", val := 62,
        category := "skill", description := some "Storing frequently accessed data for faster retrieval" },
      { id := "authentication", name := "Authentication", val := 70,
        category := "skill", description := some "Verifying user identity through secure mechanisms" },
      { id := "encryption", name := "Encryption", val := 68,
        category := "skill", description := some "Protecting sensitive data through cryptographic techniques" },
      { id := "vite", name := "Vite", val := 60,
        category := "concept", description := some "Next-generation build tool for fast development" },
      { id := "webpack", name := "Webpack", val := 58,
        category := "concept", description := some "Module bundler for JavaScript applications" },
      { id := "git", name := "Git", val := 72,
        category := "skill", description := some "Version control system for code collaboration" }
    ],
    links := [
      { source := .byId "web-development", target := .byId "frontend",
        value := some (.jnum 15), label := some (.jstr "includes") },
      { source := .byId "web-development", target := .byId "backend",
        value := some (.jnum 15), label := some (.jstr "includes") },
      { source := .byId "web-development", target := .byId "devops",
        value := some (.jnum 12), label := some (.jstr "requires") },
      { source := .byId "web-development", target := .byId "mobile-web",
        value := some (.jnum 11), label := some (.jstr "includes") },
      { source := .byId "web-development", target := .byId "web-performance",
        value := some (.jnum 12), label := some (.jstr "prioritizes") },
      { source := .byId "web-development", target := .byId "security",
        value := some (.jnum 13), label := some (.jstr "requires") },
      { source := .byId "frontend", target := .byId "html-css",
        value := some (.jnum 13), label := some (.jstr "foundation") },
      { source := .byId "frontend", target := .byId "javascript",
        value := some (.jnum 14), label := some (.jstr "core-language") },
      { source := .byId "frontend", target := .byId "react",
        value := some (.jnum 12), label := some (.jstr "popular-framework") },
      { source := .byId "frontend", target := .byId "vue",
        value := some (.jnum 10), label := some (.jstr "alternative-framework") },
      { source := .byId "frontend", target := .byId "typescript",
        value := some (.jnum 11), label := some (.jstr "enhances") },
      { source := .byId "javascript", target := .byId "typescript",
        value := some (.jnum 12), label := some (.jstr "extends") },
      { source := .byId "react", target := .byId "vite",
        value := some (.jnum 10), label := some (.jstr "uses") },
      { source := .byId "vue", target := .byId "vite",
        value := some (.jnum 9), label := some (.jstr "integrates-with") },
      { source := .byId "backend", target := .byId "nodejs",
        value := some (.jnum 13), label := some (.jstr "popular-runtime") },
      { source := .byId "backend", target := .byId "databases",
        value := some (.jnum 13), label := some (.jstr "uses") },
      { source := .byId "backend", target := .byId "rest-api",
        value := some (.jnum 12), label := some (.jstr "builds") },
      { source := .byId "backend", target := .byId "graphql",
        value := some (.jnum 10), label := some (.jstr "alternative-to") },
      { source := .byId "rest-api", target := .byId "graphql",
        value := some (.jnum 9), label := some (.jstr "compared-to") },
      { source := .byId "databases", target := .byId "sql",
        value := some (.jnum 12), label := some (.jstr "uses") },
      { source := .byId "devops", target := .byId "docker",
        value := some (.jnum 12), label := some (.jstr "uses") },
      { source := .byId "devops", target := .byId "kubernetes",
        value := some (.jnum 11), label := some (.jstr "orchestrates-with") },
      { source := .byId "devops", target := .byId "ci-cd",
        value := some (.jnum 13), label := some (.jstr "automates") },
      { source := .byId "docker", target := .byId "kubernetes",
        value := some (.jnum 11), label := some (.jstr "works-with") },
      { source := .byId "mobile-web", target := .byId "responsive-design",
        value := some (.jnum 12), label := some (.jstr "requires") },
      { source := .byId "mobile-web", target := .byId "pwa",
        value := some (.jnum 11), label := some (.jstr "emerging-pattern") },
      { source := .byId "web-performance", target := .byId "optimization",
        value := some (.jnum 12), label := some (.jstr "technique") },
      { source := .byId "web-performance", target := .byId "caching",
        value := some (.jnum 11), label := some (.jstr "strategy") },
      { source := .byId "security", target := .byId "authentication",
        value := some (.jnum 12), label := some (.jstr "method") },
      { source := .byId "security", target := .byId "encryption",
        value := some (.jnum 11), label := some (.jstr "technique") },
      { source := .byId "frontend", target := .byId "webpack",
        value := some (.jnum 10), label := some (.jstr "uses") },
      { source := .byId "nodejs", target := .byId "git",
        value := some (.jnum 10), label := some (.jstr "version-control") },
      { source := .byId "nodejs", target := .byId "devops",
        value := some (.jnum 11), label := some (.jstr "deployed-via") },
      { source := .byId "javascript", target := .byId "nodejs",
        value := some (.jnum 13), label := some (.jstr "runtime") },
      { source := .byId "backend", target := .byId "ci-cd",
        value := some (.jnum 10), label := some (.jstr "automated-by") }
    ] }

/-- Embedding of the `DUMMY_DATA_TEMPLATES['quantum-computing']` constructor's output. -/
def quantumComputingTemplate : GraphData :=
  { nodes := [
      { id := "quantum-computing", name := "Quantum Computing", val := 100,
        category := "topic", description := some "Computational systems leveraging quantum mechanical phenomena" },
      { id := "quantum-mechanics", name := "Quantum Mechanics", val := 88,
        category := "concept", description := some "Physics of matter and energy at atomic and subatomic scales" },
      { id := "qubits", name := "Qubits", val := 85,
        category := "concept", description := some "Quantum bits that exist in superposition of 0 and 1" },
      { id := "quantum-gates", name := "Quantum Gates", val := 80,
        category := "skill", description := some "Operations manipulating qubit states in quantum circuits" },
      { id := "quantum-algorithms", name := "Quantum Algorithms", val := 82,
        category := "concept", description := some "Computational procedures designed for quantum computers" },
      { id := "error-correction", name := "Quantum Error Correction", val := 75,
        category := "concept", description := some "Protecting quantum information from decoherence errors" },
      { id := "quantum-applications", name := "Quantum Applications", val := 70,
        category := "project", description := some "Real-world problems solved using quantum computing" },
      { id := "superposition", name := "Superposition", val := 78,
        category := "concept", description := some "Property of qubits existing in multiple states simultaneously" },
      { id := "entanglement", name := "Entanglement", val := 76,
        category := "concept", description := some "Correlation between qubits independent of distance" },
      { id := "shors-algorithm", name := "Shor Algorithm", val := 72,
        category := "skill", description := some "Quantum algorithm for integer factorization efficiently" },
      { id := "grovers-algorithm", name := "Grover Algorithm", val := 68,
        category := "skill", description := some "Quantum search algorithm providing quadratic speedup" },
      { id := "quantum-simulation", name := "Quantum Simulation", val := 65,
        category := "skill", description := some "Simulating quantum systems on quantum computers" },
      { id := "ibm-quantum", name := "IBM Quantum", val := 60,
        category := "resource", description := some "Cloud-based quantum computing platform and services" },
      { id := "google-sycamore", name := "Google Sycamore", val := 62,
        category := "resource", description := some "Google quantum processor demonstrating quantum supremacy" },
      { id := "cryptography", name := "Post-Quantum Cryptography", val := 70,
        category := "skill", description := some "Encryption resistant to quantum computing attacks" },
      { id := "drug-discovery", name := "Drug Discovery", val := 58,
        category := "project", description := some "Quantum simulations accelerating pharmaceutical research" },
      { id := "optimization", name := "Combinatorial Optimization", val := 64,
        category := "skill", description := some "Solving complex optimization problems quantum speedup" },
      { id := "variational-algorithms", name := "Variational Algorithms", val := 66,
        category := "concept", description := some "Hybrid quantum-classical algorithms for near-term devices" },
      { id := "david-deutsch", name := "David Deutsch", val := 70,
        category := "person", description := some "Founder of quantum computing field theoretical physicist" },
      { id := "richard-feynman", name := "Richard Feynman", val := 72,
        category := "person", description := some "Visionary proposing quantum computers could simulate nature" }
    ],
    links := [
      { source := .byId "quantum-computing", target := .byId "quantum-mechanics",
        value := some (.jnum 15), label := some (.jstr "based-on") },
      { source := .byId "quantum-computing", target := .byId "qubits",
        value := some (.jnum 14), label := some (.jstr "fundamental-unit") },
      { source := .byId "quantum-computing", target := .byId "quantum-gates",
        value := some (.jnum 13), label := some (.jstr "uses") },
      { source := .byId "quantum-computing", target := .byId "quantum-algorithms",
        value := some (.jnum 14), label := some (.jstr "implements") },
      { source := .byId "quantum-computing", target := .byId "error-correction",
        value := some (.jnum 12), label := some (.jstr "requires") },
      { source := .byId "quantum-computing", target := .byId "quantum-applications",
        value := some (.jnum 11), label := some (.jstr "enables") },
      { source := .byId "qubits", target := .byId "superposition",
        value := some (.jnum 13), label := some (.jstr "exhibits") },
      { source := .byId "qubits", target := .byId "entanglement",
        value := some (.jnum 12), label := some (.jstr "exhibits") },
      { source := .byId "quantum-gates", target := .byId "superposition",
        value := some (.jnum 11), label := some (.jstr "manipulates") },
      { source := .byId "quantum-algorithms", target := .byId "shors-algorithm",
        value := some (.jnum 12), label := some (.jstr "includes") },
      { source := .byId "quantum-algorithms", target := .byId "grovers-algorithm",
        value := some (.jnum 11), label := some (.jstr "includes") },
      { source := .byId "quantum-algorithms", target := .byId "quantum-simulation",
        value := some (.jnum 10), label := some (.jstr "includes") },
      { source := .byId "quantum-algorithms", target := .byId "variational-algorithms",
        value := some (.jnum 10), label := some (.jstr "includes") },
      { source := .byId "shors-algorithm", target := .byId "cryptography",
        value := some (.jnum 12), label := some (.jstr "threatens") },
      { source := .byId "grovers-algorithm", target := .byId "optimization",
        value := some (.jnum 10), label := some (.jstr "enables") },
      { source := .byId "quantum-simulation", target := .byId "drug-discovery",
        value := some (.jnum 11), label := some (.jstr "accelerates") },
      { source := .byId "variational-algorithms", target := .byId "optimization",
        value := some (.jnum 11), label := some (.jstr "solves") },
      { source := .byId "david-deutsch", target := .byId "quantum-computing",
        value := some (.jnum 13), label := some (.jstr "founded") },
      { source := .byId "richard-feynman", target := .byId "quantum-computing",
        value := some (.jnum 13), label := some (.jstr "pioneered") },
      { source := .byId "richard-feynman", target := .byId "quantum-simulation",
        value := some (.jnum 11), label := some (.jstr "proposed") },
      { source := .byId "ibm-quantum", target := .byId "quantum-gates",
        value := some (.jnum 10), label := some (.jstr "provides") },
      { source := .byId "google-sycamore", target := .byId "quantum-supremacy",
        value := some (.jnum 11), label := some (.jstr "demonstrates") },
      { source := .byId "error-correction", target := .byId "quantum-gates",
        value := some (.jnum 10), label := some (.jstr "protects") }
    ] }

/-- Embedding of the `DUMMY_DATA_TEMPLATES` registry: a fixed mapping from a
normalized topic key to the template constructor's (deterministic) output. -/
def DUMMY_DATA_TEMPLATES : List (String × GraphData) :=
  [("machine-learning", machineLearningTemplate),
   ("web-development", webDevelopmentTemplate),
   ("quantum-computing", quantumComputingTemplate)]

/-- Registry lookup `DUMMY_DATA_TEMPLATES[normalizedTopic]` (exact key match). -/
def lookupTemplate (key : String) : Option GraphData :=
  DUMMY_DATA_TEMPLATES.lookup key

/-- Embedding of `fetchGraphData` (src/services/ai.ts lines 884-906): the
artificial 500 ms delay is dropped (pure model); the topic is normalized, the
template registry consulted, the generic generator used as fallback, and the
result passed through `validateGraphData` before being returned. A validation
throw surfaces as `.error`. -/
def fetchGraphData (topic : String) (rand : Nat → Rat) : Except VError GraphData :=
  let normalizedTopic := normalizeTopic topic
  let graphData : GraphData :=
    match lookupTemplate normalizedTopic with
    | some g => g
    | none => generateGenericGraphData topic rand
  match validateGraphData graphData.toJ with
  | .ok _ => .ok graphData
  | .error e => .error e

/-- The 25 node-id suffixes of the generic generator's output, in node
order: the root's empty suffix, then per primary concept the concept suffix
and its three sub-concept suffixes (counter values 0-23). -/
def genericIdSuffixes : List String :=
  ["",
   "-concept-0",
   "-sub-1",
   "-sub-2",
   "-sub-3",
   "-concept-4",
   "-sub-5",
   "-sub-6",
   "-sub-7",
   "-concept-8",
   "-sub-9",
   "-sub-10",
   "-sub-11",
   "-concept-12",
   "-sub-13",
   "-sub-14",
   "-sub-15",
   "-concept-16",
   "-sub-17",
   "-sub-18",
   "-sub-19",
   "-concept-20",
   "-sub-21",
   "-sub-22",
   "-sub-23"]

/-- Closed form of the generic generator's output: the recursion of
`genConcepts` over the fixed six-element `primaryConcepts` list unrolled, with
`c` abbreviating the normalized topic. Proven equal to the generator below. -/
def genericClosedForm (topic : String) (rand : Nat → Rat) : GraphData :=
  let c := normalizeTopic topic
  { nodes := [
      { id := c, name := topic, val := 100, category := "topic",
        description := some ("Comprehensive knowledge graph for " ++ topic) },
      { id := c ++ "-concept-0", name := "Fundamentals", val := 70 + rand 0 * 20,
        category := "concept", description := some ("Fundamentals related to " ++ topic) },
      { id := c ++ "-sub-1", name := "Fundamentals Detail 1", val := 40 + rand 1 * 30,
        category := "concept", description := some "Specific aspect of Fundamentals" },
      { id := c ++ "-sub-2", name := "Fundamentals Detail 2", val := 40 + rand 2 * 30,
        category := "concept", description := some "Specific aspect of Fundamentals" },
      { id := c ++ "-sub-3", name := "Fundamentals Detail 3", val := 40 + rand 3 * 30,
        category := "concept", description := some "Specific aspect of Fundamentals" },
      { id := c ++ "-concept-4", name := "Core Concepts", val := 70 + rand 4 * 20,
        category := "concept", description := some ("Core Concepts related to " ++ topic) },
      { id := c ++ "-sub-5", name := "Core Concepts Detail 1", val := 40 + rand 5 * 30,
        category := "concept", description := some "Specific aspect of Core Concepts" },
      { id := c ++ "-sub-6", name := "Core Concepts Detail 2", val := 40 + rand 6 * 30,
        category := "concept", description := some "Specific aspect of Core Concepts" },
      { id := c ++ "-sub-7", name := "Core Concepts Detail 3", val := 40 + rand 7 * 30,
        category := "concept", description := some "Specific aspect of Core Concepts" },
      { id := c ++ "-concept-8", name := "Applications", val := 70 + rand 8 * 20,
        category := "concept", description := some ("Applications related to " ++ topic) },
      { id := c ++ "-sub-9", name := "Applications Detail 1", val := 40 + rand 9 * 30,
        category := "concept", description := some "Specific aspect of Applications" },
      { id := c ++ "-sub-10", name := "Applications Detail 2", val := 40 + rand 10 * 30,
        category := "concept", description := some "Specific aspect of Applications" },
      { id := c ++ "-sub-11", name := "Applications Detail 3", val := 40 + rand 11 * 30,
        category := "concept", description := some "Specific aspect of Applications" },
      { id := c ++ "-concept-12", name := "Tools & Resources", val := 70 + rand 12 * 20,
        category := "concept", description := some ("Tools & Resources related to " ++ topic) },
      { id := c ++ "-sub-13", name := "Tools & Resources Detail 1", val := 40 + rand 13 * 30,
        category := "concept", description := some "Specific aspect of Tools & Resources" },
      { id := c ++ "-sub-14", name := "Tools & Resources Detail 2", val := 40 + rand 14 * 30,
        category := "concept", description := some "Specific aspect of Tools & Resources" },
      { id := c ++ "-sub-15", name := "Tools & Resources Detail 3", val := 40 + rand 15 * 30,
        category := "concept", description := some "Specific aspect of Tools & Resources" },
      { id := c ++ "-concept-16", name := "Advanced Topics", val := 70 + rand 16 * 20,
        category := "concept", description := some ("Advanced Topics related to " ++ topic) },
      { id := c ++ "-sub-17", name := "Advanced Topics Detail 1", val := 40 + rand 17 * 30,
        category := "concept", description := some "Specific aspect of Advanced Topics" },
      { id := c ++ "-sub-18", name := "Advanced Topics Detail 2", val := 40 + rand 18 * 30,
        category := "concept", description := some "Specific aspect of Advanced Topics" },
      { id := c ++ "-sub-19", name := "Advanced Topics Detail 3", val := 40 + rand 19 * 30,
        category := "concept", description := some "Specific aspect of Advanced Topics" },
      { id := c ++ "-concept-20", name := "Best Practices", val := 70 + rand 20 * 20,
        category := "concept", description := some ("Best Practices related to " ++ topic) },
      { id := c ++ "-sub-21", name := "Best Practices Detail 1", val := 40 + rand 21 * 30,
        category := "concept", description := some "Specific aspect of Best Practices" },
      { id := c ++ "-sub-22", name := "Best Practices Detail 2", val := 40 + rand 22 * 30,
        category := "concept", description := some "Specific aspect of Best Practices" },
      { id := c ++ "-sub-23", name := "Best Practices Detail 3", val := 40 + rand 23 * 30,
        category := "concept", description := some "Specific aspect of Best Practices" }
    ],
    links := [
      { source := .byId c, target := .byId (c ++ "-concept-0"),
        value := some (.jnum 12), label := some (.jstr "includes") },
      { source := .byId (c ++ "-concept-0"), target := .byId (c ++ "-sub-1"),
        value := some (.jnum 10), label := some (.jstr "includes") },
      { source := .byId (c ++ "-concept-0"), target := .byId (c ++ "-sub-2"),
        value := some (.jnum 10), label := some (.jstr "includes") },
      { source := .byId (c ++ "-concept-0"), target := .byId (c ++ "-sub-3"),
        value := some (.jnum 10), label := some (.jstr "includes") },
      { source := .byId c, target := .byId (c ++ "-concept-4"),
        value := some (.jnum 12), label := some (.jstr "includes") },
      { source := .byId (c ++ "-concept-4"), target := .byId (c ++ "-sub-5"),
        value := some (.jnum 10), label := some (.jstr "includes") },
      { source := .byId (c ++ "-concept-4"), target := .byId (c ++ "-sub-6"),
        value := some (.jnum 10), label := some (.jstr "includes") },
      { source := .byId (c ++ "-concept-4"), target := .byId (c ++ "-sub-7"),
        value := some (.jnum 10), label := some (.jstr "includes") },
      { source := .byId c, target := .byId (c ++ "-concept-8"),
        value := some (.jnum 12), label := some (.jstr "includes") },
      { source := .byId (c ++ "-concept-8"), target := .byId (c ++ "-sub-9"),
        value := some (.jnum 10), label := some (.jstr "includes") },
      { source := .byId (c ++ "-concept-8"), target := .byId (c ++ "-sub-10"),
        value := some (.jnum 10), label := some (.jstr "includes") },
      { source := .byId (c ++ "-concept-8"), target := .byId (c ++ "-sub-11"),
        value := some (.jnum 10), label := some (.jstr "includes") },
      { source := .byId c, target := .byId (c ++ "-concept-12"),
        value := some (.jnum 12), label := some (.jstr "includes") },
      { source := .byId (c ++ "-concept-12"), target := .byId (c ++ "-sub-13"),
        value := some (.jnum 10), label := some (.jstr "includes") },
      { source := .byId (c ++ "-concept-12"), target := .byId (c ++ "-sub-14"),
        value := some (.jnum 10), label := some (.jstr "includes") },
      { source := .byId (c ++ "-concept-12"), target := .byId (c ++ "-sub-15"),
        value := some (.jnum 10), label := some (.jstr "includes") },
      { source := .byId c, target := .byId (c ++ "-concept-16"),
        value := some (.jnum 12), label := some (.jstr "includes") },
      { source := .byId (c ++ "-concept-16"), target := .byId (c ++ "-sub-17"),
        value := some (.jnum 10), label := some (.jstr "includes") },
      { source := .byId (c ++ "-concept-16"), target := .byId (c ++ "-sub-18"),
        value := some (.jnum 10), label := some (.jstr "includes") },
      { source := .byId (c ++ "-concept-16"), target := .byId (c ++ "-sub-19"),
        value := some (.jnum 10), label := some (.jstr "includes") },
      { source := .byId c, target := .byId (c ++ "-concept-20"),
        value := some (.jnum 12), label := some (.jstr "includes") },
      { source := .byId (c ++ "-concept-20"), target := .byId (c ++ "-sub-21"),
        value := some (.jnum 10), label := some (.jstr "includes") },
      { source := .byId (c ++ "-concept-20"), target := .byId (c ++ "-sub-22"),
        value := some (.jnum 10), label := some (.jstr "includes") },
      { source := .byId (c ++ "-concept-20"), target := .byId (c ++ "-sub-23"),
        value := some (.jnum 10), label := some (.jstr "includes") }
    ] }

/-- The generic generator computes exactly its closed form. -/
theorem generateGenericGraphData_eq (topic : String) (rand : Nat → Rat) :
    generateGenericGraphData topic rand = genericClosedForm topic rand := rfl

/-- Left cancellation for string append. -/
theorem String.append_left_cancel {a b c : String} (h : a ++ b = a ++ c) : b = c := by
  have hd : a.data ++ b.data = a.data ++ c.data := congrArg String.data h
  exact String.ext (List.append_cancel_left hd)

/-- A string is never itself extended by a non-empty suffix. -/
theorem String.ne_self_append {a s : String} (hs : s ≠ "") : a ≠ a ++ s := by
  intro hc
  have h0 : a ++ "" = a ++ s := by rw [String.append_empty]; exact hc
  exact hs (String.append_left_cancel h0).symm

/-- Appending a non-empty suffix never yields the empty string. -/
theorem String.append_ne_empty_of_right {a s : String} (hs : s ≠ "") : a ++ s ≠ "" := by
  intro hc
  have h2 : a.data ++ s.data = [] := congrArg String.data hc
  rcases List.append_eq_nil.mp h2 with ⟨-, h3⟩
  exact hs (String.ext h3)

/-- Prepending a fixed string is injective. -/
theorem String.append_left_injective (a : String) :
    Function.Injective (fun s => a ++ s) := fun _ _ h =>
  String.append_left_cancel h

/-- Collapsing whitespace (not already inside a run) never empties a
non-empty character list: the first character contributes either itself or
the hyphen opening a run. -/
theorem collapseWsAux_ne_nil (c : Char) (rest : List Char) :
    collapseWsAux false (c :: rest) ≠ [] := by
  by_cases hw : c.isWhitespace <;> simp [collapseWsAux, hw]

/-- Normalizing a non-empty topic yields a non-empty string. -/
theorem normalizeTopic_ne_empty {topic : String} (h : topic ≠ "") :
    normalizeTopic topic ≠ "" := by
  have hdata : topic.data ≠ [] := fun hc => h (String.ext hc)
  intro hc
  have h2 : collapseWsAux false (topic.data.map Char.toLower) = [] :=
    congrArg String.data hc
  cases hd : topic.data with
  | nil => exact hdata hd
  | cons c rest =>
    rw [hd] at h2
    exact collapseWsAux_ne_nil _ _ (by simpa using h2)

/-- A typed node with non-empty id, name and category and in-range val passes
the per-node field checks. -/
theorem checkNodeFields_toJ (n : GraphNode) (hid : n.id ≠ "")
    (hname : n.name ≠ "") (hval : 0 ≤ n.val ∧ n.val ≤ 100)
    (hcat : n.category ≠ "") :
    checkNodeFields n.toJ = .ok n.id := by
  have hv : ¬ (n.val < 0 ∨ 100 < n.val) := by
    simp only [not_or, not_lt]
    exact hval
  cases hd : n.description <;>
    simp [checkNodeFields, GraphNode.toJ, jsGet, hd, List.lookup, hid, hname, hcat, hv]

/-- The node loop succeeds on well-formed nodes whose ids are fresh for the
accumulated set, and accumulates exactly those ids. -/
theorem checkNodes_toJ (ns : List GraphNode) (seen : List String)
    (hok : ∀ n ∈ ns, n.id ≠ "" ∧ n.name ≠ "" ∧ (0 ≤ n.val ∧ n.val ≤ 100) ∧ n.category ≠ "")
    (hnd : (ns.map GraphNode.id).Nodup)
    (hdis : ∀ n ∈ ns, n.id ∉ seen) :
    checkNodes seen (ns.map GraphNode.toJ) = .ok ((ns.map GraphNode.id).reverse ++ seen) := by
  induction ns generalizing seen with
  | nil => simp [checkNodes]
  | cons n rest ih =>
    have hn := hok n (List.mem_cons_self n rest)
    have hcf := checkNodeFields_toJ n hn.1 hn.2.1 hn.2.2.1 hn.2.2.2
    have hnd' : (∀ x ∈ rest, ¬ x.id = n.id) ∧ (rest.map GraphNode.id).Nodup := by
      simpa using hnd
    have hmem : seen.contains n.id = false := by
      simpa using hdis n (List.mem_cons_self n rest)
    have hrest := ih (n.id :: seen)
      (fun m hm => hok m (List.mem_cons_of_mem n hm))
      hnd'.2
      (fun m hm => by
        have h1 : m.id ≠ n.id := hnd'.1 m hm
        have h2 : m.id ∉ seen := hdis m (List.mem_cons_of_mem n hm)
        simp [h1, h2])
    simp [checkNodes, hcf, hmem, hrest, List.append_assoc]
    exact hdis n (List.mem_cons_self n rest)

/-- Resolving the source of a typed link yields its id as a string. -/
theorem resolveEndpoint_toJ_source (l : GraphLink) :
    resolveEndpoint l.toJ "source" = .ok (.jstr l.source.endId) := by
  cases hs : l.source with
  | byId s =>
    simp [resolveEndpoint, GraphLink.toJ, jsGet, List.lookup, hs, LinkEnd.toJ, LinkEnd.endId]
  | byNode n =>
    cases hd : n.description <;>
      simp [resolveEndpoint, GraphLink.toJ, jsGet, List.lookup, hs, hd,
        LinkEnd.toJ, LinkEnd.endId, GraphNode.toJ]

/-- Resolving the target of a typed link yields its id as a string. -/
theorem resolveEndpoint_toJ_target (l : GraphLink) :
    resolveEndpoint l.toJ "target" = .ok (.jstr l.target.endId) := by
  cases hs : l.target with
  | byId s =>
    simp [resolveEndpoint, GraphLink.toJ, jsGet, List.lookup, hs, LinkEnd.toJ, LinkEnd.endId]
  | byNode n =>
    cases hd : n.description <;>
      simp [resolveEndpoint, GraphLink.toJ, jsGet, List.lookup, hs, hd,
        LinkEnd.toJ, LinkEnd.endId, GraphNode.toJ]

/-- The link loop succeeds when every endpoint id is non-empty and present in
the id set, whatever the links' value and label fields hold. -/
theorem checkLinks_toJ (ids : List String) (ls : List GraphLink)
    (h : ∀ l ∈ ls, l.source.endId ≠ "" ∧ l.target.endId ≠ "" ∧
      l.source.endId ∈ ids ∧ l.target.endId ∈ ids) :
    checkLinks ids (ls.map GraphLink.toJ) = .ok () := by
  induction ls with
  | nil => simp [checkLinks]
  | cons l rest ih =>
    have hl := h l (List.mem_cons_self l rest)
    have hrest := ih (fun m hm => h m (List.mem_cons_of_mem l hm))
    simp [checkLinks, resolveEndpoint_toJ_source, resolveEndpoint_toJ_target,
      truthy, setHasStr, hl.1, hl.2.1, hl.2.2.1, hl.2.2.2, hrest]

/-- Soundness of the validator on typed graphs: non-empty node list,
well-formed node fields, duplicate-free ids and resolvable link endpoints
guarantee acceptance. -/
theorem validateGraphData_toJ_ok (g : GraphData)
    (hok : ∀ n ∈ g.nodes, n.id ≠ "" ∧ n.name ≠ "" ∧ (0 ≤ n.val ∧ n.val ≤ 100) ∧ n.category ≠ "")
    (hnd : (g.nodes.map GraphNode.id).Nodup)
    (hne : g.nodes ≠ [])
    (hlk : ∀ l ∈ g.links, l.source.endId ≠ "" ∧ l.target.endId ≠ "" ∧
      l.source.endId ∈ g.nodes.map GraphNode.id ∧ l.target.endId ∈ g.nodes.map GraphNode.id) :
    validateGraphData g.toJ = .ok () := by
  have hcn := checkNodes_toJ g.nodes [] hok hnd (by simp)
  have hcl := checkLinks_toJ (g.nodes.map GraphNode.id).reverse g.links
    (fun l hl => by
      have h := hlk l hl
      simpa using h)
  have hlen : (g.nodes.map GraphNode.toJ).length ≠ 0 := by
    simpa [List.length_eq_zero] using hne
  simp [validateGraphData, GraphData.toJ, jsGet, List.lookup, hlen, hcn, hcl]
  exact hne

/-- The generated node ids are exactly the normalized topic extended by each
suffix, in order. -/
theorem genericIds_eq (topic : String) (rand : Nat → Rat) :
    (generateGenericGraphData topic rand).nodes.map GraphNode.id
      = genericIdSuffixes.map (fun s => normalizeTopic topic ++ s) := by
  simp [generateGenericGraphData_eq, genericClosedForm, genericIdSuffixes,
    String.append_empty]

/-- The generated node ids never collide, for any topic and random draws:
distinct suffixes extended from a common base remain distinct. -/
theorem genericIds_nodup (topic : String) (rand : Nat → Rat) :
    ((generateGenericGraphData topic rand).nodes.map GraphNode.id).Nodup := by
  rw [genericIds_eq]
  exact List.Nodup.map (String.append_left_injective (normalizeTopic topic)) (by decide)

/-- A second-tier importance `70 + r*20` stays within the validator's `[0,100]`
band for `r ∈ [0,1)`. -/
theorem concept_val_bound {r : Rat} (h : 0 ≤ r ∧ r < 1) :
    0 ≤ 70 + r * 20 ∧ 70 + r * 20 ≤ 100 := by
  constructor <;> nlinarith [h.1, h.2]

/-- A leaf importance `40 + r*30` stays within `[0,100]` for `r ∈ [0,1)`. -/
theorem sub_val_bound {r : Rat} (h : 0 ≤ r ∧ r < 1) :
    0 ≤ 40 + r * 30 ∧ 40 + r * 30 ≤ 100 := by
  constructor <;> nlinarith [h.1, h.2]

/-- A second-tier importance stays strictly below the root's 100. -/
theorem concept_val_lt {r : Rat} (h : 0 ≤ r ∧ r < 1) : 70 + r * 20 < 100 := by
  nlinarith [h.1, h.2]

/-- A leaf importance stays strictly below the root's 100. -/
theorem sub_val_lt {r : Rat} (h : 0 ≤ r ∧ r < 1) : 40 + r * 30 < 100 := by
  nlinarith [h.1, h.2]


/-- Appending to a non-empty string never yields the empty string. -/
theorem String.append_ne_empty_of_left {a : String} (s : String) (ha : a ≠ "") :
    a ++ s ≠ "" := by
  intro hc
  have h2 : a.data ++ s.data = [] := congrArg String.data hc
  rcases List.append_eq_nil.mp h2 with ⟨h3, -⟩
  exact ha (String.ext h3)

/-- Endpoint pairs of a graph's links, in order. -/
def GraphData.edgePairs (g : GraphData) : List (String × String) :=
  g.links.map fun l => (l.source.endId, l.target.endId)

/-- The generated node names, in order. -/
theorem genericNames_eq (topic : String) (rand : Nat → Rat) :
    (generateGenericGraphData topic rand).nodes.map GraphNode.name
      = topic :: ["Fundamentals",
         "Fundamentals Detail 1",
         "Fundamentals Detail 2",
         "Fundamentals Detail 3",
         "Core Concepts",
         "Core Concepts Detail 1",
         "Core Concepts Detail 2",
         "Core Concepts Detail 3",
         "Applications",
         "Applications Detail 1",
         "Applications Detail 2",
         "Applications Detail 3",
         "Tools & Resources",
         "Tools & Resources Detail 1",
         "Tools & Resources Detail 2",
         "Tools & Resources Detail 3",
         "Advanced Topics",
         "Advanced Topics Detail 1",
         "Advanced Topics Detail 2",
         "Advanced Topics Detail 3",
         "Best Practices",
         "Best Practices Detail 1",
         "Best Practices Detail 2",
         "Best Practices Detail 3"] := rfl

/-- The generated importance values, in order: the root's 100, then per
concept `70 + r*20` and three `40 + r*30` leaves. -/
theorem genericVals_eq (topic : String) (rand : Nat → Rat) :
    (generateGenericGraphData topic rand).nodes.map GraphNode.val
      = [100,
         70 + rand 0 * 20,
         40 + rand 1 * 30,
         40 + rand 2 * 30,
         40 + rand 3 * 30,
         70 + rand 4 * 20,
         40 + rand 5 * 30,
         40 + rand 6 * 30,
         40 + rand 7 * 30,
         70 + rand 8 * 20,
         40 + rand 9 * 30,
         40 + rand 10 * 30,
         40 + rand 11 * 30,
         70 + rand 12 * 20,
         40 + rand 13 * 30,
         40 + rand 14 * 30,
         40 + rand 15 * 30,
         70 + rand 16 * 20,
         40 + rand 17 * 30,
         40 + rand 18 * 30,
         40 + rand 19 * 30,
         70 + rand 20 * 20,
         40 + rand 21 * 30,
         40 + rand 22 * 30,
         40 + rand 23 * 30] := rfl

/-- The generated categories: `topic` for the root, `concept` elsewhere. -/
theorem genericCats_eq (topic : String) (rand : Nat → Rat) :
    (generateGenericGraphData topic rand).nodes.map GraphNode.category
      = "topic" :: List.replicate 24 "concept" := rfl

/-- The generated link endpoint pairs, in order: root to each concept, then
each concept to its three leaves. -/
theorem genericEdges_eq (topic : String) (rand : Nat → Rat) :
    (generateGenericGraphData topic rand).edgePairs
      = [(normalizeTopic topic, normalizeTopic topic ++ "-concept-0"),
         (normalizeTopic topic ++ "-concept-0", normalizeTopic topic ++ "-sub-1"),
         (normalizeTopic topic ++ "-concept-0", normalizeTopic topic ++ "-sub-2"),
         (normalizeTopic topic ++ "-concept-0", normalizeTopic topic ++ "-sub-3"),
         (normalizeTopic topic, normalizeTopic topic ++ "-concept-4"),
         (normalizeTopic topic ++ "-concept-4", normalizeTopic topic ++ "-sub-5"),
         (normalizeTopic topic ++ "-concept-4", normalizeTopic topic ++ "-sub-6"),
         (normalizeTopic topic ++ "-concept-4", normalizeTopic topic ++ "-sub-7"),
         (normalizeTopic topic, normalizeTopic topic ++ "-concept-8"),
         (normalizeTopic topic ++ "-concept-8", normalizeTopic topic ++ "-sub-9"),
         (normalizeTopic topic ++ "-concept-8", normalizeTopic topic ++ "-sub-10"),
         (normalizeTopic topic ++ "-concept-8", normalizeTopic topic ++ "-sub-11"),
         (normalizeTopic topic, normalizeTopic topic ++ "-concept-12"),
         (normalizeTopic topic ++ "-concept-12", normalizeTopic topic ++ "-sub-13"),
         (normalizeTopic topic ++ "-concept-12", normalizeTopic topic ++ "-sub-14"),
         (normalizeTopic topic ++ "-concept-12", normalizeTopic topic ++ "-sub-15"),
         (normalizeTopic topic, normalizeTopic topic ++ "-concept-16"),
         (normalizeTopic topic ++ "-concept-16", normalizeTopic topic ++ "-sub-17"),
         (normalizeTopic topic ++ "-concept-16", normalizeTopic topic ++ "-sub-18"),
         (normalizeTopic topic ++ "-concept-16", normalizeTopic topic ++ "-sub-19"),
         (normalizeTopic topic, normalizeTopic topic ++ "-concept-20"),
         (normalizeTopic topic ++ "-concept-20", normalizeTopic topic ++ "-sub-21"),
         (normalizeTopic topic ++ "-concept-20", normalizeTopic topic ++ "-sub-22"),
         (normalizeTopic topic ++ "-concept-20", normalizeTopic topic ++ "-sub-23")] := rfl

/-- Every generated importance value lies in the validator's `[0,100]` band
when the random draws lie in `[0,1)`. -/
theorem genericVals_bounds (topic : String) (rand : Nat → Rat)
    (hrand : ∀ n, 0 ≤ rand n ∧ rand n < 1) :
    ∀ v ∈ (generateGenericGraphData topic rand).nodes.map GraphNode.val,
      0 ≤ v ∧ v ≤ 100 := by
  rw [genericVals_eq]
  intro v hv
  simp only [List.mem_cons, List.not_mem_nil, or_false] at hv
  rcases hv with rfl | hv
  · exact ⟨by norm_num, by norm_num⟩
  rcases hv with rfl|rfl|rfl|rfl|rfl|rfl|rfl|rfl|rfl|rfl|rfl|rfl|rfl|rfl|rfl|rfl|rfl|rfl|rfl|rfl|rfl|rfl|rfl|rfl
  · exact concept_val_bound (hrand 0)
  · exact sub_val_bound (hrand 1)
  · exact sub_val_bound (hrand 2)
  · exact sub_val_bound (hrand 3)
  · exact concept_val_bound (hrand 4)
  · exact sub_val_bound (hrand 5)
  · exact sub_val_bound (hrand 6)
  · exact sub_val_bound (hrand 7)
  · exact concept_val_bound (hrand 8)
  · exact sub_val_bound (hrand 9)
  · exact sub_val_bound (hrand 10)
  · exact sub_val_bound (hrand 11)
  · exact concept_val_bound (hrand 12)
  · exact sub_val_bound (hrand 13)
  · exact sub_val_bound (hrand 14)
  · exact sub_val_bound (hrand 15)
  · exact concept_val_bound (hrand 16)
  · exact sub_val_bound (hrand 17)
  · exact sub_val_bound (hrand 18)
  · exact sub_val_bound (hrand 19)
  · exact concept_val_bound (hrand 20)
  · exact sub_val_bound (hrand 21)
  · exact sub_val_bound (hrand 22)
  · exact sub_val_bound (hrand 23)

/-- Every generated node name is non-empty when the topic is. -/
theorem genericNames_ne (topic : String) (rand : Nat → Rat) (htopic : topic ≠ "") :
    ∀ x ∈ (generateGenericGraphData topic rand).nodes.map GraphNode.name,
      x ≠ "" := by
  rw [genericNames_eq]
  intro x hx
  simp only [List.mem_cons, List.not_mem_nil, or_false] at hx
  rcases hx with rfl|rfl|rfl|rfl|rfl|rfl|rfl|rfl|rfl|rfl|rfl|rfl|rfl|rfl|rfl|rfl|rfl|rfl|rfl|rfl|rfl|rfl|rfl|rfl|rfl
  all_goals first | exact htopic | decide

/-- Every generated node id is non-empty when the topic is. -/
theorem genericIds_ne (topic : String) (rand : Nat → Rat) (htopic : topic ≠ "") :
    ∀ x ∈ (generateGenericGraphData topic rand).nodes.map GraphNode.id,
      x ≠ "" := by
  rw [genericIds_eq]
  intro x hx
  rcases List.mem_map.mp hx with ⟨s, -, rfl⟩
  exact String.append_ne_empty_of_left s (normalizeTopic_ne_empty htopic)

/-- Every generated category is non-empty. -/
theorem genericCats_ne (topic : String) (rand : Nat → Rat) :
    ∀ x ∈ (generateGenericGraphData topic rand).nodes.map GraphNode.category,
      x ≠ "" := by
  rw [genericCats_eq]
  intro x hx
  simp only [List.mem_cons, List.mem_replicate] at hx
  rcases hx with rfl | ⟨-, rfl⟩ <;> decide

/-- For a non-empty topic and random draws in `[0,1)`, the generic generator's
output passes the validator. -/
theorem generateGeneric_validates (topic : String) (rand : Nat → Rat)
    (htopic : topic ≠ "") (hrand : ∀ n, 0 ≤ rand n ∧ rand n < 1) :
    validateGraphData (generateGenericGraphData topic rand).toJ = .ok () := by
  apply validateGraphData_toJ_ok
  · intro n hn
    exact ⟨genericIds_ne topic rand htopic _ (List.mem_map_of_mem GraphNode.id hn),
           genericNames_ne topic rand htopic _ (List.mem_map_of_mem GraphNode.name hn),
           genericVals_bounds topic rand hrand _ (List.mem_map_of_mem GraphNode.val hn),
           genericCats_ne topic rand _ (List.mem_map_of_mem GraphNode.category hn)⟩
  · exact genericIds_nodup topic rand
  · rw [generateGenericGraphData_eq]
    simp [genericClosedForm]
  · intro l hl
    have hp : (l.source.endId, l.target.endId) ∈ (generateGenericGraphData topic rand).edgePairs :=
      List.mem_map_of_mem (fun l => (l.source.endId, l.target.endId)) hl
    rw [genericEdges_eq] at hp
    rw [genericIds_eq]
    simp only [List.mem_cons, List.not_mem_nil, or_false, Prod.mk.injEq] at hp
    rcases hp with (⟨h1, h2⟩|⟨h1, h2⟩|⟨h1, h2⟩|⟨h1, h2⟩|⟨h1, h2⟩|⟨h1, h2⟩|⟨h1, h2⟩|⟨h1, h2⟩|⟨h1, h2⟩|⟨h1, h2⟩|⟨h1, h2⟩|⟨h1, h2⟩|⟨h1, h2⟩|⟨h1, h2⟩|⟨h1, h2⟩|⟨h1, h2⟩|⟨h1, h2⟩|⟨h1, h2⟩|⟨h1, h2⟩|⟨h1, h2⟩|⟨h1, h2⟩|⟨h1, h2⟩|⟨h1, h2⟩|⟨h1, h2⟩)
    · rw [h1, h2]
      refine ⟨normalizeTopic_ne_empty htopic, String.append_ne_empty_of_right (by decide), ?_, ?_⟩ <;>
        simp [genericIdSuffixes, String.append_empty]
    · rw [h1, h2]
      refine ⟨String.append_ne_empty_of_right (by decide), String.append_ne_empty_of_right (by decide), ?_, ?_⟩ <;>
        simp [genericIdSuffixes, String.append_empty]
    · rw [h1, h2]
      refine ⟨String.append_ne_empty_of_right (by decide), String.append_ne_empty_of_right (by decide), ?_, ?_⟩ <;>
        simp [genericIdSuffixes, String.append_empty]
    · rw [h1, h2]
      refine ⟨String.append_ne_empty_of_right (by decide), String.append_ne_empty_of_right (by decide), ?_, ?_⟩ <;>
        simp [genericIdSuffixes, String.append_empty]
    · rw [h1, h2]
      refine ⟨normalizeTopic_ne_empty htopic, String.append_ne_empty_of_right (by decide), ?_, ?_⟩ <;>
        simp [genericIdSuffixes, String.append_empty]
    · rw [h1, h2]
      refine ⟨String.append_ne_empty_of_right (by decide), String.append_ne_empty_of_right (by decide), ?_, ?_⟩ <;>
        simp [genericIdSuffixes, String.append_empty]
    · rw [h1, h2]
      refine ⟨String.append_ne_empty_of_right (by decide), String.append_ne_empty_of_right (by decide), ?_, ?_⟩ <;>
        simp [genericIdSuffixes, String.append_empty]
    · rw [h1, h2]
      refine ⟨String.append_ne_empty_of_right (by decide), String.append_ne_empty_of_right (by decide), ?_, ?_⟩ <;>
        simp [genericIdSuffixes, String.append_empty]
    · rw [h1, h2]
      refine ⟨normalizeTopic_ne_empty htopic, String.append_ne_empty_of_right (by decide), ?_, ?_⟩ <;>
        simp [genericIdSuffixes, String.append_empty]
    · rw [h1, h2]
      refine ⟨String.append_ne_empty_of_right (by decide), String.append_ne_empty_of_right (by decide), ?_, ?_⟩ <;>
        simp [genericIdSuffixes, String.append_empty]
    · rw [h1, h2]
      refine ⟨String.append_ne_empty_of_right (by decide), String.append_ne_empty_of_right (by decide), ?_, ?_⟩ <;>
        simp [genericIdSuffixes, String.append_empty]
    · rw [h1, h2]
      refine ⟨String.append_ne_empty_of_right (by decide), String.append_ne_empty_of_right (by decide), ?_, ?_⟩ <;>
        simp [genericIdSuffixes, String.append_empty]
    · rw [h1, h2]
      refine ⟨normalizeTopic_ne_empty htopic, String.append_ne_empty_of_right (by decide), ?_, ?_⟩ <;>
        simp [genericIdSuffixes, String.append_empty]
    · rw [h1, h2]
      refine ⟨String.append_ne_empty_of_right (by decide), String.append_ne_empty_of_right (by decide), ?_, ?_⟩ <;>
        simp [genericIdSuffixes, String.append_empty]
    · rw [h1, h2]
      refine ⟨String.append_ne_empty_of_right (by decide), String.append_ne_empty_of_right (by decide), ?_, ?_⟩ <;>
        simp [genericIdSuffixes, String.append_empty]
    · rw [h1, h2]
      refine ⟨String.append_ne_empty_of_right (by decide), String.append_ne_empty_of_right (by decide), ?_, ?_⟩ <;>
        simp [genericIdSuffixes, String.append_empty]
    · rw [h1, h2]
      refine ⟨normalizeTopic_ne_empty htopic, String.append_ne_empty_of_right (by decide), ?_, ?_⟩ <;>
        simp [genericIdSuffixes, String.append_empty]
    · rw [h1, h2]
      refine ⟨String.append_ne_empty_of_right (by decide), String.append_ne_empty_of_right (by decide), ?_, ?_⟩ <;>
        simp [genericIdSuffixes, String.append_empty]
    · rw [h1, h2]
      refine ⟨String.append_ne_empty_of_right (by decide), String.append_ne_empty_of_right (by decide), ?_, ?_⟩ <;>
        simp [genericIdSuffixes, String.append_empty]
    · rw [h1, h2]
      refine ⟨String.append_ne_empty_of_right (by decide), String.append_ne_empty_of_right (by decide), ?_, ?_⟩ <;>
        simp [genericIdSuffixes, String.append_empty]
    · rw [h1, h2]
      refine ⟨normalizeTopic_ne_empty htopic, String.append_ne_empty_of_right (by decide), ?_, ?_⟩ <;>
        simp [genericIdSuffixes, String.append_empty]
    · rw [h1, h2]
      refine ⟨String.append_ne_empty_of_right (by decide), String.append_ne_empty_of_right (by decide), ?_, ?_⟩ <;>
        simp [genericIdSuffixes, String.append_empty]
    · rw [h1, h2]
      refine ⟨String.append_ne_empty_of_right (by decide), String.append_ne_empty_of_right (by decide), ?_, ?_⟩ <;>
        simp [genericIdSuffixes, String.append_empty]
    · rw [h1, h2]
      refine ⟨String.append_ne_empty_of_right (by decide), String.append_ne_empty_of_right (by decide), ?_, ?_⟩ <;>
        simp [genericIdSuffixes, String.append_empty]

/-- Reachability along a graph's directed links. -/
def ReachableFrom (g : GraphData) (a b : String) : Prop :=
  Relation.ReflTransGen (fun x y => (x, y) ∈ g.edgePairs) a b

/-- Every generated node is reachable from the root: concepts in one hop,
leaves in two. -/
theorem genericReachable (topic : String) (rand : Nat → Rat) :
    ∀ n ∈ (generateGenericGraphData topic rand).nodes,
      ReachableFrom (generateGenericGraphData topic rand) (normalizeTopic topic) n.id := by
  intro n hn
  have hid : n.id ∈ genericIdSuffixes.map (fun s => normalizeTopic topic ++ s) := by
    rw [← genericIds_eq]
    exact List.mem_map_of_mem GraphNode.id hn
  rcases List.mem_map.mp hid with ⟨s, hs, heq⟩
  rw [← heq]
  fin_cases hs
  · rw [String.append_empty]
    exact Relation.ReflTransGen.refl
  · exact Relation.ReflTransGen.single (by rw [genericEdges_eq]; simp)
  · exact Relation.ReflTransGen.tail
      (Relation.ReflTransGen.single
        (show (normalizeTopic topic, normalizeTopic topic ++ "-concept-0") ∈
            (generateGenericGraphData topic rand).edgePairs by
          rw [genericEdges_eq]; simp))
      (by rw [genericEdges_eq]; simp)
  · exact Relation.ReflTransGen.tail
      (Relation.ReflTransGen.single
        (show (normalizeTopic topic, normalizeTopic topic ++ "-concept-0") ∈
            (generateGenericGraphData topic rand).edgePairs by
          rw [genericEdges_eq]; simp))
      (by rw [genericEdges_eq]; simp)
  · exact Relation.ReflTransGen.tail
      (Relation.ReflTransGen.single
        (show (normalizeTopic topic, normalizeTopic topic ++ "-concept-0") ∈
            (generateGenericGraphData topic rand).edgePairs by
          rw [genericEdges_eq]; simp))
      (by rw [genericEdges_eq]; simp)
  · exact Relation.ReflTransGen.single (by rw [genericEdges_eq]; simp)
  · exact Relation.ReflTransGen.tail
      (Relation.ReflTransGen.single
        (show (normalizeTopic topic, normalizeTopic topic ++ "-concept-4") ∈
            (generateGenericGraphData topic rand).edgePairs by
          rw [genericEdges_eq]; simp))
      (by rw [genericEdges_eq]; simp)
  · exact Relation.ReflTransGen.tail
      (Relation.ReflTransGen.single
        (show (normalizeTopic topic, normalizeTopic topic ++ "-concept-4") ∈
            (generateGenericGraphData topic rand).edgePairs by
          rw [genericEdges_eq]; simp))
      (by rw [genericEdges_eq]; simp)
  · exact Relation.ReflTransGen.tail
      (Relation.ReflTransGen.single
        (show (normalizeTopic topic, normalizeTopic topic ++ "-concept-4") ∈
            (generateGenericGraphData topic rand).edgePairs by
          rw [genericEdges_eq]; simp))
      (by rw [genericEdges_eq]; simp)
  · exact Relation.ReflTransGen.single (by rw [genericEdges_eq]; simp)
  · exact Relation.ReflTransGen.tail
      (Relation.ReflTransGen.single
        (show (normalizeTopic topic, normalizeTopic topic ++ "-concept-8") ∈
            (generateGenericGraphData topic rand).edgePairs by
          rw [genericEdges_eq]; simp))
      (by rw [genericEdges_eq]; simp)
  · exact Relation.ReflTransGen.tail
      (Relation.ReflTransGen.single
        (show (normalizeTopic topic, normalizeTopic topic ++ "-concept-8") ∈
            (generateGenericGraphData topic rand).edgePairs by
          rw [genericEdges_eq]; simp))
      (by rw [genericEdges_eq]; simp)
  · exact Relation.ReflTransGen.tail
      (Relation.ReflTransGen.single
        (show (normalizeTopic topic, normalizeTopic topic ++ "-concept-8") ∈
            (generateGenericGraphData topic rand).edgePairs by
          rw [genericEdges_eq]; simp))
      (by rw [genericEdges_eq]; simp)
  · exact Relation.ReflTransGen.single (by rw [genericEdges_eq]; simp)
  · exact Relation.ReflTransGen.tail
      (Relation.ReflTransGen.single
        (show (normalizeTopic topic, normalizeTopic topic ++ "-concept-12") ∈
            (generateGenericGraphData topic rand).edgePairs by
          rw [genericEdges_eq]; simp))
      (by rw [genericEdges_eq]; simp)
  · exact Relation.ReflTransGen.tail
      (Relation.ReflTransGen.single
        (show (normalizeTopic topic, normalizeTopic topic ++ "-concept-12") ∈
            (generateGenericGraphData topic rand).edgePairs by
          rw [genericEdges_eq]; simp))
      (by rw [genericEdges_eq]; simp)
  · exact Relation.ReflTransGen.tail
      (Relation.ReflTransGen.single
        (show (normalizeTopic topic, normalizeTopic topic ++ "-concept-12") ∈
            (generateGenericGraphData topic rand).edgePairs by
          rw [genericEdges_eq]; simp))
      (by rw [genericEdges_eq]; simp)
  · exact Relation.ReflTransGen.single (by rw [genericEdges_eq]; simp)
  · exact Relation.ReflTransGen.tail
      (Relation.ReflTransGen.single
        (show (normalizeTopic topic, normalizeTopic topic ++ "-concept-16") ∈
            (generateGenericGraphData topic rand).edgePairs by
          rw [genericEdges_eq]; simp))
      (by rw [genericEdges_eq]; simp)
  · exact Relation.ReflTransGen.tail
      (Relation.ReflTransGen.single
        (show (normalizeTopic topic, normalizeTopic topic ++ "-concept-16") ∈
            (generateGenericGraphData topic rand).edgePairs by
          rw [genericEdges_eq]; simp))
      (by rw [genericEdges_eq]; simp)
  · exact Relation.ReflTransGen.tail
      (Relation.ReflTransGen.single
        (show (normalizeTopic topic, normalizeTopic topic ++ "-concept-16") ∈
            (generateGenericGraphData topic rand).edgePairs by
          rw [genericEdges_eq]; simp))
      (by rw [genericEdges_eq]; simp)
  · exact Relation.ReflTransGen.single (by rw [genericEdges_eq]; simp)
  · exact Relation.ReflTransGen.tail
      (Relation.ReflTransGen.single
        (show (normalizeTopic topic, normalizeTopic topic ++ "-concept-20") ∈
            (generateGenericGraphData topic rand).edgePairs by
          rw [genericEdges_eq]; simp))
      (by rw [genericEdges_eq]; simp)
  · exact Relation.ReflTransGen.tail
      (Relation.ReflTransGen.single
        (show (normalizeTopic topic, normalizeTopic topic ++ "-concept-20") ∈
            (generateGenericGraphData topic rand).edgePairs by
          rw [genericEdges_eq]; simp))
      (by rw [genericEdges_eq]; simp)
  · exact Relation.ReflTransGen.tail
      (Relation.ReflTransGen.single
        (show (normalizeTopic topic, normalizeTopic topic ++ "-concept-20") ∈
            (generateGenericGraphData topic rand).edgePairs by
          rw [genericEdges_eq]; simp))
      (by rw [genericEdges_eq]; simp)

/-- Every non-root importance value stays strictly below 100 for draws in
`[0,1)`. -/
theorem genericTailVals_lt (topic : String) (rand : Nat → Rat)
    (hrand : ∀ n, 0 ≤ rand n ∧ rand n < 1) :
    ∀ v ∈ ((generateGenericGraphData topic rand).nodes.map GraphNode.val).tail,
      v < 100 := by
  rw [genericVals_eq]
  intro v hv
  simp only [List.tail_cons, List.mem_cons, List.not_mem_nil, or_false] at hv
  rcases hv with rfl|rfl|rfl|rfl|rfl|rfl|rfl|rfl|rfl|rfl|rfl|rfl|rfl|rfl|rfl|rfl|rfl|rfl|rfl|rfl|rfl|rfl|rfl|rfl
  · exact concept_val_lt (hrand 0)
  · exact sub_val_lt (hrand 1)
  · exact sub_val_lt (hrand 2)
  · exact sub_val_lt (hrand 3)
  · exact concept_val_lt (hrand 4)
  · exact sub_val_lt (hrand 5)
  · exact sub_val_lt (hrand 6)
  · exact sub_val_lt (hrand 7)
  · exact concept_val_lt (hrand 8)
  · exact sub_val_lt (hrand 9)
  · exact sub_val_lt (hrand 10)
  · exact sub_val_lt (hrand 11)
  · exact concept_val_lt (hrand 12)
  · exact sub_val_lt (hrand 13)
  · exact sub_val_lt (hrand 14)
  · exact sub_val_lt (hrand 15)
  · exact concept_val_lt (hrand 16)
  · exact sub_val_lt (hrand 17)
  · exact sub_val_lt (hrand 18)
  · exact sub_val_lt (hrand 19)
  · exact concept_val_lt (hrand 20)
  · exact sub_val_lt (hrand 21)
  · exact sub_val_lt (hrand 22)
  · exact sub_val_lt (hrand 23)

/-- Whitespace JSON accepts between tokens. -/
def jsonWs (c : Char) : Bool :=
  c = ' ' ∨ c = '\t' ∨ c = '\n' ∨ c = '\r'

/-- Skip insignificant whitespace. -/
def skipWs : List Char → List Char
  | [] => []
  | c :: rest => if jsonWs c then skipWs rest else c :: rest

/-- Match a literal keyword tail, returning the remaining input. -/
def stripLit : List Char → List Char → Option (List Char)
  | [], s => some s
  | c :: lit, d :: s => if c = d then stripLit lit s else none
  | _ :: _, [] => none

/-- JavaScript-object field update: an existing key's value is replaced in
place, a new key is appended (so later duplicate keys in the raw text
overwrite earlier ones, as `JSON.parse` does). -/
def setField (k : String) (v : JValue) : List (String × JValue) → List (String × JValue)
  | [] => [(k, v)]
  | (k0, v0) :: rest =>
    if k0 = k then (k0, v) :: rest else (k0, v0) :: setField k v rest

/-- Numeric value of a digit list. -/
def digitsToNat (ds : List Char) : Nat :=
  ds.foldl (fun acc c => 10 * acc + (c.toNat - 48)) 0

/-- Value of four hex digits, if all are hex. -/
def hexVal (c : Char) : Option Nat :=
  if '0' ≤ c ∧ c ≤ '9' then some (c.toNat - 48)
  else if 'a' ≤ c ∧ c ≤ 'f' then some (c.toNat - 87)
  else if 'A' ≤ c ∧ c ≤ 'F' then some (c.toNat - 55)
  else none

/-- Parse the body of a JSON string after the opening quote. The `\u` escape
is mapped through `Char.ofNat` (code points outside Lean's `Char` range
degrade to the null character; no input in this development uses them). -/
def parseStringBody (fuel : Nat) (acc : List Char) (s : List Char) :
    Except String (String × List Char) :=
  match fuel with
  | 0 => .error "Unexpected end of JSON input"
  | fuel + 1 =>
    match s with
    | [] => .error "Unterminated string in JSON input"
    | '"' :: rest => .ok (⟨acc⟩, rest)
    | '\\' :: esc =>
      match esc with
      | '"' :: r => parseStringBody fuel (acc ++ ['"']) r
      | '\\' :: r => parseStringBody fuel (acc ++ ['\\']) r
      | '/' :: r => parseStringBody fuel (acc ++ ['/']) r
      | 'b' :: r => parseStringBody fuel (acc ++ ['\x08']) r
      | 'f' :: r => parseStringBody fuel (acc ++ ['\x0c']) r
      | 'n' :: r => parseStringBody fuel (acc ++ ['\n']) r
      | 'r' :: r => parseStringBody fuel (acc ++ ['\r']) r
      | 't' :: r => parseStringBody fuel (acc ++ ['\t']) r
      | 'u' :: h1 :: h2 :: h3 :: h4 :: r =>
        match hexVal h1, hexVal h2, hexVal h3, hexVal h4 with
        | some a, some b, some c, some d =>
          parseStringBody fuel (acc ++ [Char.ofNat (((a * 16 + b) * 16 + c) * 16 + d)]) r
        | _, _, _, _ => .error "Invalid unicode escape in JSON string"
      | _ => .error "Invalid escape in JSON string"
    | c :: rest =>
      if c.toNat < 32 then .error "Unescaped control character in JSON string"
      else parseStringBody fuel (acc ++ [c]) rest

/-- Signed integer as a rational, gcd-free. -/
def ratOfSign (neg : Bool) (n : Nat) : Rat :=
  Rat.ofInt (if neg then -(n : Int) else (n : Int))

/-- Parse the optional fraction and exponent after the integer part. -/
def parseJsonNumberTail (neg : Bool) (intPart : Nat) (s : List Char) :
    Except String (Rat × List Char) :=
  let (fracDigits, s3) :=
    match s with
    | '.' :: r =>
      (r.takeWhile Char.isDigit, r.dropWhile Char.isDigit)
    | _ => ([], s)
  if s ≠ [] ∧ s.head? = some '.' ∧ fracDigits = [] then
    .error "Invalid number in JSON input"
  else
    let (expSign, expDigits, s4) :=
      match s3 with
      | 'e' :: '+' :: r => (false, r.takeWhile Char.isDigit, r.dropWhile Char.isDigit)
      | 'e' :: '-' :: r => (true, r.takeWhile Char.isDigit, r.dropWhile Char.isDigit)
      | 'e' :: r => (false, r.takeWhile Char.isDigit, r.dropWhile Char.isDigit)
      | 'E' :: '+' :: r => (false, r.takeWhile Char.isDigit, r.dropWhile Char.isDigit)
      | 'E' :: '-' :: r => (true, r.takeWhile Char.isDigit, r.dropWhile Char.isDigit)
      | 'E' :: r => (false, r.takeWhile Char.isDigit, r.dropWhile Char.isDigit)
      | _ => (false, [], s3)
    if (s3.head? = some 'e' ∨ s3.head? = some 'E') ∧ expDigits = [] then
      .error "Invalid number in JSON input"
    else
      let base : Rat :=
        if fracDigits = [] then ratOfSign neg intPart
        else
          let m := ratOfSign neg (intPart * 10 ^ fracDigits.length + digitsToNat fracDigits)
          m / Rat.ofInt ((10 : Int) ^ fracDigits.length)
      let scaled : Rat :=
        if expDigits = [] then base
        else if expSign then base / Rat.ofInt ((10 : Int) ^ digitsToNat expDigits)
        else base * Rat.ofInt ((10 : Int) ^ digitsToNat expDigits)
      .ok (scaled, s4)

/-- Parse a JSON number (strict grammar: optional minus, `0` or a non-zero
leading integer part, optional fraction, optional exponent). Integer values
are built with `Rat.ofInt`; only fractions and exponents go through field
arithmetic. -/
def parseJsonNumber (s : List Char) : Except String (Rat × List Char) :=
  let (neg, s1) :=
    match s with
    | '-' :: r => (true, r)
    | _ => (false, s)
  match s1 with
  | [] => .error "Invalid number in JSON input"
  | c :: _ =>
    if ¬ c.isDigit then .error "Invalid number in JSON input"
    else
      let intDigits := if c = '0' then ['0'] else s1.takeWhile Char.isDigit
      let s2 := if c = '0' then s1.drop 1 else s1.dropWhile Char.isDigit
      match s2 with
      | d :: _ =>
        if c = '0' ∧ d.isDigit then .error "Invalid number in JSON input"
        else
          parseJsonNumberTail neg (digitsToNat intDigits) s2
      | [] => .ok (ratOfSign neg (digitsToNat intDigits), [])

mutual

/-- Parse one JSON value (the recursive core of `JSON.parse`). The fuel is a
termination device; the top-level call supplies more than the input length,
which nesting can never exhaust since every recursive step first consumes at
least one character. -/
def parseJsonValue (fuel : Nat) (s : List Char) : Except String (JValue × List Char) :=
  match fuel with
  | 0 => .error "Unexpected end of JSON input"
  | fuel + 1 =>
    match skipWs s with
    | [] => .error "Unexpected end of JSON input"
    | 'n' :: rest =>
      match stripLit ['u', 'l', 'l'] rest with
      | some r => .ok (.jnull, r)
      | none => .error "Unexpected token n in JSON input"
    | 't' :: rest =>
      match stripLit ['r', 'u', 'e'] rest with
      | some r => .ok (.jbool true, r)
      | none => .error "Unexpected token t in JSON input"
    | 'f' :: rest =>
      match stripLit ['a', 'l', 's', 'e'] rest with
      | some r => .ok (.jbool false, r)
      | none => .error "Unexpected token f in JSON input"
    | '"' :: rest =>
      match parseStringBody (rest.length + 1) [] rest with
      | .error e => .error e
      | .ok (str, r) => .ok (.jstr str, r)
    | '[' :: rest =>
      match skipWs rest with
      | ']' :: r => .ok (.jarr [], r)
      | r => parseJsonArrayElems fuel [] r
    | '{' :: rest =>
      match skipWs rest with
      | '}' :: r => .ok (.jobj [], r)
      | r => parseJsonObjectFields fuel [] r
    | c :: rest =>
      if c = '-' ∨ c.isDigit then
        match parseJsonNumber (c :: rest) with
        | .error e => .error e
        | .ok (q, r) => .ok (.jnum q, r)
      else .error "Unexpected token in JSON input"

/-- Parse the comma-separated elements of a non-empty JSON array. -/
def parseJsonArrayElems (fuel : Nat) (acc : List JValue) (s : List Char) :
    Except String (JValue × List Char) :=
  match fuel with
  | 0 => .error "Unexpected end of JSON input"
  | fuel + 1 =>
    match parseJsonValue fuel s with
    | .error e => .error e
    | .ok (v, rem) =>
      match skipWs rem with
      | ',' :: rest => parseJsonArrayElems fuel (acc ++ [v]) rest
      | ']' :: rest => .ok (.jarr (acc ++ [v]), rest)
      | _ => .error "Expected comma or closing bracket in JSON array"

/-- Parse the fields of a non-empty JSON object. -/
def parseJsonObjectFields (fuel : Nat) (acc : List (String × JValue)) (s : List Char) :
    Except String (JValue × List Char) :=
  match fuel with
  | 0 => .error "Unexpected end of JSON input"
  | fuel + 1 =>
    match skipWs s with
    | '"' :: rest =>
      match parseStringBody (rest.length + 1) [] rest with
      | .error e => .error e
      | .ok (key, r1) =>
        match skipWs r1 with
        | ':' :: r2 =>
          match parseJsonValue fuel r2 with
          | .error e => .error e
          | .ok (v, rem) =>
            match skipWs rem with
            | ',' :: rest2 => parseJsonObjectFields fuel (setField key v acc) rest2
            | '}' :: rest2 => .ok (.jobj (setField key v acc), rest2)
            | _ => .error "Expected comma or closing brace in JSON object"
        | _ => .error "Expected colon in JSON object"
    | _ => .error "Expected string key in JSON object"

end

/-- Embedding of `JSON.parse`: parse one value and insist nothing but
whitespace follows. An `.error` models a thrown `SyntaxError`. -/
def jsonParse (text : String) : Except String JValue :=
  match parseJsonValue (text.data.length + 2) text.data with
  | .error e => .error e
  | .ok (v, rem) =>
    match skipWs rem with
    | [] => .ok v
    | _ => .error "Unexpected non-whitespace character after JSON data"

/-- Failure modes of `parseGraphDataResponse`: a wrapped `SyntaxError` from
`JSON.parse` (the message the source interpolates into
`Invalid JSON response from Claude: ...`), or a rethrown validator error. -/
inductive PError where
  | invalidJson (msg : String)
  | validation (e : VError)

/-- Embedding of `parseGraphDataResponse` (src/services/ai.ts lines
1030-1046): `JSON.parse`, then `validateGraphData`; a `SyntaxError` is
wrapped as an invalid-JSON diagnostic, any other thrown error propagates
unchanged; the parsed data is returned only when validation passes. -/
def parseGraphDataResponse (response : String) : Except PError JValue :=
  match jsonParse response with
  | .error msg => .error (.invalidJson msg)
  | .ok data =>
    match validateGraphData data with
    | .ok _ => .ok data
    | .error e => .error (.validation e)

/-- Spec-side field access (§4.1/§4.2): the value of a field of an object,
`none` for anything else. Written from the spec's words: spec-side checks
never raise on a malformed container, they simply fail the check in turn. -/
def specGetField (v : JValue) (k : String) : Option JValue :=
  match v with
  | .jobj fields => fields.lookup k
  | _ => none

/-- Spec-side: a field that holds a non-empty string, else `none`. -/
def specFieldStr (v : JValue) (k : String) : Option String :=
  match specGetField v k with
  | some (.jstr s) => if s = "" then none else some s
  | _ => none

/-- Spec step 4, written from the spec's words: per node in iteration order,
id is a non-empty string, then name, then importance numeric within [0,100],
then category a non-empty string, aborting at the first violated constraint
with an error identifying it. -/
def specNodeFields (node : JValue) : Except VError String :=
  match specFieldStr node "id" with
  | none => .error .nodeMissingId
  | some id =>
    match specFieldStr node "name" with
    | none => .error (.nodeMissingName id)
    | some _ =>
      match specGetField node "val" with
      | some (.jnum q) =>
        if 0 ≤ q ∧ q ≤ 100 then
          match specFieldStr node "category" with
          | none => .error (.nodeMissingCategory id)
          | some _ => .ok id
        else .error (.nodeBadVal id)
      | _ => .error (.nodeBadVal id)

/-- Spec steps 4-5: iterate the nodes, field checks first, accumulating the
set of seen ids, aborting on a repeated id. -/
def specNodesSteps (seen : List String) : List JValue → Except VError (List String)
  | [] => .ok seen
  | node :: rest =>
    match specNodeFields node with
    | .error e => .error e
    | .ok id =>
      if seen.contains id then .error (.duplicateNodeId id)
      else specNodesSteps (id :: seen) rest

/-- Spec step 6 endpoint resolution (§3's polymorphic rule): a bare string is
itself the id; an embedded reference contributes its `id` field when that is
a string; anything else is unresolvable. -/
def specResolveEnd (link : JValue) (k : String) : Option String :=
  match specGetField link k with
  | some (.jstr s) => some s
  | some other =>
    match specGetField other "id" with
    | some (.jstr s) => some s
    | _ => none
  | none => none

/-- Spec step 6: per link in iteration order, resolve both endpoints; an
empty or unresolvable endpoint is a missing-endpoint failure; a resolved id
absent from the id set is a dangling reference, source side checked first. -/
def specLinksStep (ids : List String) : List JValue → Except VError Unit
  | [] => .ok ()
  | link :: rest =>
    match specResolveEnd link "source", specResolveEnd link "target" with
    | some s, some t =>
      if s = "" ∨ t = "" then .error .linkEndpointMissing
      else if ¬ ids.contains s then .error (.linkSourceNotFound (.jstr s))
      else if ¬ ids.contains t then .error (.linkTargetNotFound (.jstr t))
      else specLinksStep ids rest
    | _, _ => .error .linkEndpointMissing

/-- The validator as §4.2 words it: checks 1-7 in order, stopping at the
first failure. -/
def specOrderedValidate (data : JValue) : Except VError Unit :=
  match specGetField data "nodes" with
  | some (.jarr nodes) =>
    match specGetField data "links" with
    | some (.jarr links) =>
      if nodes.length = 0 then .error .emptyNodes
      else
        match specNodesSteps [] nodes with
        | .error e => .error e
        | .ok ids => specLinksStep ids links
    | _ => .error .missingLinks
  | _ => .error .missingNodes

/-- A node value on which the code's field access cannot raise a TypeError:
anything but `null`/`undefined`. -/
def nodeOk : JValue → Bool
  | .jnull => false
  | .jundefined => false
  | _ => true

/-- A link endpoint on which the code's resolution neither raises (a missing
or null/undefined field makes `link.source.id` throw) nor produces a
non-string resolved value that the spec instead calls unresolvable. -/
def endpointOk (link : JValue) (k : String) : Bool :=
  match link with
  | .jobj fields =>
    match fields.lookup k with
    | some (.jstr _) => true
    | some (.jobj nf) =>
      match nf.lookup "id" with
      | some (.jstr _) => true
      | none => true
      | some _ => false
    | some .jnull => false
    | some .jundefined => false
    | some _ => true
    | none => false
  | _ => false

/-- Candidate data on which the code's property accesses cannot raise and
embedded endpoints resolve to strings or miss: the domain on which the code
agrees exactly with the spec's ordered checks. -/
def wellBehavedData : JValue → Bool
  | .jundefined => false
  | .jnull => false
  | .jobj fields =>
    (match fields.lookup "nodes" with
     | some (.jarr ns) => ns.all nodeOk
     | _ => true) &&
    (match fields.lookup "links" with
     | some (.jarr ls) => ls.all fun l => endpointOk l "source" && endpointOk l "target"
     | _ => true)
  | _ => true

/-- On a non-null node the code's field checks coincide with the spec's. -/
theorem checkNodeFields_eq_spec (node : JValue) (h : nodeOk node = true) :
    checkNodeFields node = specNodeFields node := by
  cases node with
  | jnull => simp [nodeOk] at h
  | jundefined => simp [nodeOk] at h
  | jbool b => rfl
  | jnum q => rfl
  | jstr s => rfl
  | jarr xs => rfl
  | jobj fields =>
    show checkNodeFields (.jobj fields) = specNodeFields (.jobj fields)
    rw [checkNodeFields, specNodeFields]
    simp only [jsGet, specGetField, specFieldStr]
    rcases hid : fields.lookup "id" with - | (- | - | b | q | id | xs | fs) <;>
        try rfl
    by_cases hide : id = ""
    · simp [hide]
    simp only [if_neg hide]
    rcases hname : fields.lookup "name" with - | (- | - | b | q | name | xs | fs) <;>
        try rfl
    by_cases hnamee : name = ""
    · simp [hnamee]
    simp only [if_neg hnamee]
    rcases hval : fields.lookup "val" with - | (- | - | b | q | s2 | xs | fs) <;>
        try rfl
    by_cases hq : q < 0 ∨ 100 < q
    · have hq2 : ¬ (0 ≤ q ∧ q ≤ 100) := by
        simp only [not_and_or, not_le]
        rcases hq with h1 | h1
        · exact Or.inl h1
        · exact Or.inr h1
      simp [hq, hq2]
    have hq2 : 0 ≤ q ∧ q ≤ 100 := by
      simp only [not_or, not_lt] at hq
      exact hq
    simp only [if_pos hq2, if_neg hq]
    rcases hcat : fields.lookup "category" with - | (- | - | b2 | q2 | cat | xs | fs) <;>
        try rfl
    by_cases hcate : cat = ""
    · simp [hcate]
    · simp [hcate]

/-- On non-null nodes the code's node loop coincides with the spec's. -/
theorem checkNodes_eq_spec (ns : List JValue) (seen : List String)
    (h : ∀ n ∈ ns, nodeOk n = true) :
    checkNodes seen ns = specNodesSteps seen ns := by
  induction ns generalizing seen with
  | nil => rfl
  | cons n rest ih =>
    rw [checkNodes, specNodesSteps, checkNodeFields_eq_spec n (h n (List.mem_cons_self n rest))]
    cases specNodeFields n with
    | error e => rfl
    | ok id =>
      by_cases hmem : id ∈ seen
      · simp [hmem]
      · simp [hmem, ih (id :: seen) (fun m hm => h m (List.mem_cons_of_mem n hm))]

/-- On a well-behaved link the code's endpoint resolution either produces the
string the spec resolves to, or `undefined` exactly when the spec finds the
endpoint unresolvable. -/
theorem resolveEndpoint_eq_spec (link : JValue) (k : String)
    (h : endpointOk link k = true) :
    (∃ s, resolveEndpoint link k = .ok (.jstr s) ∧ specResolveEnd link k = some s) ∨
    (resolveEndpoint link k = .ok .jundefined ∧ specResolveEnd link k = none) := by
  cases link with
  | jobj fields =>
    rcases hf : fields.lookup k with - | (- | - | b | q | s | xs | nf)
    · simp [endpointOk, hf] at h
    · simp [endpointOk, hf] at h
    · simp [endpointOk, hf] at h
    · exact Or.inr (by simp [resolveEndpoint, specResolveEnd, jsGet, specGetField, hf])
    · exact Or.inr (by simp [resolveEndpoint, specResolveEnd, jsGet, specGetField, hf])
    · exact Or.inl ⟨s, by simp [resolveEndpoint, specResolveEnd, jsGet, specGetField, hf]⟩
    · exact Or.inr (by simp [resolveEndpoint, specResolveEnd, jsGet, specGetField, hf])
    · rcases hid : nf.lookup "id" with - | (- | - | b | q | s | xs | fs2)
      · exact Or.inr (by simp [resolveEndpoint, specResolveEnd, jsGet, specGetField, hf, hid])
      · simp [endpointOk, hf, hid] at h
      · simp [endpointOk, hf, hid] at h
      · simp [endpointOk, hf, hid] at h
      · simp [endpointOk, hf, hid] at h
      · exact Or.inl ⟨s, by simp [resolveEndpoint, specResolveEnd, jsGet, specGetField, hf, hid]⟩
      · simp [endpointOk, hf, hid] at h
      · simp [endpointOk, hf, hid] at h
  | jundefined => simp [endpointOk] at h
  | jnull => simp [endpointOk] at h
  | jbool b => simp [endpointOk] at h
  | jnum q => simp [endpointOk] at h
  | jstr s => simp [endpointOk] at h
  | jarr xs => simp [endpointOk] at h

/-- On well-behaved links the code's link loop coincides with the spec's. -/
theorem checkLinks_eq_spec (ids : List String) (ls : List JValue)
    (h : ∀ l ∈ ls, endpointOk l "source" = true ∧ endpointOk l "target" = true) :
    checkLinks ids ls = specLinksStep ids ls := by
  induction ls with
  | nil => rfl
  | cons l rest ih =>
    have hl := h l (List.mem_cons_self l rest)
    have hrest := ih fun m hm => h m (List.mem_cons_of_mem l hm)
    rw [checkLinks, specLinksStep]
    rcases resolveEndpoint_eq_spec l "source" hl.1 with ⟨s, hcs, hss⟩ | ⟨hcs, hss⟩ <;>
      rcases resolveEndpoint_eq_spec l "target" hl.2 with ⟨t, hct, hst⟩ | ⟨hct, hst⟩ <;>
        rw [hcs, hct, hss, hst]
    · by_cases hse : s = ""
      · simp [truthy, hse]
      by_cases hte : t = ""
      · simp [truthy, hse, hte]
      simp only [truthy, setHasStr]
      by_cases hsm : s ∈ ids
      · by_cases htm : t ∈ ids
        · simp [hse, hte, hsm, htm, hrest]
        · simp [hse, hte, hsm, htm]
      · simp [hse, hte, hsm]
    · simp [truthy]
    · simp [truthy]
    · simp [truthy]

/-- On well-behaved candidate data, `validateGraphData` performs exactly the
spec's ordered, fail-fast checks. -/
theorem validateGraphData_eq_spec (data : JValue) (h : wellBehavedData data = true) :
    validateGraphData data = specOrderedValidate data := by
  cases data with
  | jundefined => simp [wellBehavedData] at h
  | jnull => simp [wellBehavedData] at h
  | jbool b => rfl
  | jnum q => rfl
  | jstr s => rfl
  | jarr xs => rfl
  | jobj fields =>
    rw [validateGraphData, specOrderedValidate]
    simp only [jsGet, specGetField]
    rcases hn : fields.lookup "nodes" with - | (- | - | b | q | s | ns | fs) <;> try rfl
    rcases hl : fields.lookup "links" with - | (- | - | b | q | s | ls | fs) <;> try rfl
    dsimp only
    by_cases hlen : ns.length = 0
    · simp [hlen]
    simp only [wellBehavedData, hn, hl, Bool.and_eq_true, List.all_eq_true] at h
    rw [checkNodes_eq_spec ns [] (fun n hn2 => h.1 n hn2)]
    cases specNodesSteps [] ns with
    | error e => simp [hlen]
    | ok ids =>
      simp only [hlen, if_neg hlen]
      exact checkLinks_eq_spec ids ls fun l hl2 => by
        have := h.2 l hl2
        simpa [Bool.and_eq_true] using this

/-- A graph with every node's category replaced. -/
def GraphData.withCategories (g : GraphData) (f : GraphNode → String) : GraphData :=
  { g with nodes := g.nodes.map fun n => { n with category := f n } }

/-- A graph with every link's value and label replaced. -/
def GraphData.withLinkMeta (g : GraphData) (fv fl : GraphLink → Option JValue) : GraphData :=
  { g with links := g.links.map fun l => { l with value := fv l, label := fl l } }

/-- The per-node checks are blind to which non-empty string the category is. -/
theorem checkNodeFields_category_irrelevant (n : GraphNode) (c : String)
    (hc : c ≠ "") (hn : n.category ≠ "") :
    checkNodeFields (GraphNode.toJ { n with category := c }) = checkNodeFields n.toJ := by
  cases hd : n.description <;>
    simp [checkNodeFields, GraphNode.toJ, jsGet, List.lookup, hd, hc, hn]

/-- The node loop only depends on each node's field-check outcome. -/
theorem checkNodes_congr (ns : List GraphNode) (F G : GraphNode → JValue)
    (h : ∀ n ∈ ns, checkNodeFields (F n) = checkNodeFields (G n)) :
    ∀ seen, checkNodes seen (ns.map F) = checkNodes seen (ns.map G) := by
  induction ns with
  | nil => intro seen; rfl
  | cons n rest ih =>
    intro seen
    rw [List.map_cons, List.map_cons, checkNodes, checkNodes,
      h n (List.mem_cons_self n rest)]
    cases checkNodeFields (G n) with
    | error e => rfl
    | ok id =>
      by_cases hmem : id ∈ seen
      · simp [hmem]
      · simp [hmem, ih (fun m hm => h m (List.mem_cons_of_mem n hm)) (id :: seen)]

/-- Endpoint resolution never reads a link's value or label. -/
theorem resolveEndpoint_meta_irrelevant (l : GraphLink) (v lb : Option JValue)
    (k : String) (hk : k = "source" ∨ k = "target") :
    resolveEndpoint (GraphLink.toJ { l with value := v, label := lb }) k =
      resolveEndpoint l.toJ k := by
  rcases hk with rfl | rfl <;>
    simp [resolveEndpoint, GraphLink.toJ, jsGet, List.lookup]

/-- The link loop only depends on each link's resolved endpoints. -/
theorem checkLinks_congr (ls : List GraphLink) (F G : GraphLink → JValue)
    (h : ∀ l ∈ ls, resolveEndpoint (F l) "source" = resolveEndpoint (G l) "source" ∧
      resolveEndpoint (F l) "target" = resolveEndpoint (G l) "target") :
    ∀ ids, checkLinks ids (ls.map F) = checkLinks ids (ls.map G) := by
  induction ls with
  | nil => intro ids; rfl
  | cons l rest ih =>
    intro ids
    have hl := h l (List.mem_cons_self l rest)
    rw [List.map_cons, List.map_cons, checkLinks, checkLinks, hl.1, hl.2]
    cases resolveEndpoint (G l) "source" with
    | error e => rfl
    | ok sv =>
      cases resolveEndpoint (G l) "target" with
      | error e => rfl
      | ok tv =>
        rw [ih (fun m hm => h m (List.mem_cons_of_mem l hm)) ids]

/-- Unfolding of the validator on a typed graph's runtime value: the
container checks always pass, leaving the emptiness check and the loops. -/
theorem validateGraphData_toJ_unfold (g : GraphData) :
    validateGraphData g.toJ =
      (if (g.nodes.map GraphNode.toJ).length = 0 then .error .emptyNodes
       else
         match checkNodes [] (g.nodes.map GraphNode.toJ) with
         | .error e => .error e
         | .ok ids => checkLinks ids (g.links.map GraphLink.toJ)) := rfl

/-- Validation is invariant under replacing categories by non-empty strings:
the validator checks only that the category is a non-empty string, not
membership in the documented enumeration. -/
theorem validate_withCategories (g : GraphData) (f : GraphNode → String)
    (h : ∀ n ∈ g.nodes, f n ≠ "" ∧ n.category ≠ "") :
    validateGraphData ((g.withCategories f).toJ) = validateGraphData g.toJ := by
  rw [validateGraphData_toJ_unfold, validateGraphData_toJ_unfold]
  simp only [GraphData.withCategories, List.map_map]
  rw [checkNodes_congr g.nodes (GraphNode.toJ ∘ fun n => { n with category := f n })
    GraphNode.toJ
    (fun n hn => checkNodeFields_category_irrelevant n (f n) (h n hn).1 (h n hn).2) []]
  simp only [List.length_map]

/-- Validation is invariant under replacing every link's value and label. -/
theorem validate_withLinkMeta (g : GraphData) (fv fl : GraphLink → Option JValue) :
    validateGraphData ((g.withLinkMeta fv fl).toJ) = validateGraphData g.toJ := by
  rw [validateGraphData_toJ_unfold, validateGraphData_toJ_unfold]
  simp only [GraphData.withLinkMeta, List.map_map]
  cases checkNodes [] (g.nodes.map GraphNode.toJ) with
  | error e => rfl
  | ok ids =>
    simp only []
    rw [checkLinks_congr g.links
      (GraphLink.toJ ∘ fun l => { l with value := fv l, label := fl l }) GraphLink.toJ
      (fun l _ => ⟨resolveEndpoint_meta_irrelevant l (fv l) (fl l) "source" (Or.inl rfl),
        resolveEndpoint_meta_irrelevant l (fv l) (fl l) "target" (Or.inr rfl)⟩) ids]

/-- C1: The claim says every Template Library constructor's output passes the
Validator. The code violates it: the machine-learning template holds a link
to the non-existent node `gradient-descent` and the quantum-computing
template one to `quantum-supremacy`, so `validateGraphData` throws for both
and `fetchGraphData` rejects its own built-in data for those topics. Only the
web-development template validates. (Evidence theorem for the code_bug.) -/
theorem claim_c1_template_validation :
    validateGraphData machineLearningTemplate.toJ
        = .error (.linkTargetNotFound (.jstr "gradient-descent"))
  ∧ validateGraphData quantumComputingTemplate.toJ
        = .error (.linkTargetNotFound (.jstr "quantum-supremacy"))
  ∧ validateGraphData webDevelopmentTemplate.toJ = .ok ()
  ∧ fetchGraphData "machine learning" (fun _ => 0)
        = .error (.linkTargetNotFound (.jstr "gradient-descent"))
  ∧ fetchGraphData "quantum computing" (fun _ => 0)
        = .error (.linkTargetNotFound (.jstr "quantum-supremacy"))
  ∧ fetchGraphData "web development" (fun _ => 0) = .ok webDevelopmentTemplate :=
  ⟨rfl, rfl, rfl, rfl, rfl, rfl⟩

/-- C2 (amended): for every non-empty topic, with the `Math.random` draws in
`[0,1)`, the Generic Generator's output passes the Validator; and the node
ids and the links — the whole topology — do not depend on the draws at all. -/
theorem claim_c2_generic_validates (topic : String) (rand rand' : Nat → Rat)
    (htopic : topic ≠ "") (hrand : ∀ n, 0 ≤ rand n ∧ rand n < 1) :
    validateGraphData (generateGenericGraphData topic rand).toJ = .ok ()
  ∧ (generateGenericGraphData topic rand).nodes.map GraphNode.id
      = (generateGenericGraphData topic rand').nodes.map GraphNode.id
  ∧ (generateGenericGraphData topic rand).links
      = (generateGenericGraphData topic rand').links :=
  ⟨generateGeneric_validates topic rand htopic hrand,
   by rw [genericIds_eq, genericIds_eq],
   rfl⟩

/-- C2 witness: the amended claim at the concrete topic `"x"` with the draws
constantly one half. -/
theorem claim_c2_witness :
    validateGraphData (generateGenericGraphData "x" (fun _ => 1 / 2)).toJ = .ok ()
  ∧ (generateGenericGraphData "x" (fun _ => 1 / 2)).nodes.map GraphNode.id
      = (generateGenericGraphData "x" (fun _ => 0)).nodes.map GraphNode.id
  ∧ (generateGenericGraphData "x" (fun _ => 1 / 2)).links
      = (generateGenericGraphData "x" (fun _ => 0)).links :=
  claim_c2_generic_validates "x" (fun _ => 1 / 2) (fun _ => 0) (by decide)
    (fun n => by constructor <;> norm_num)

/-- C2 counterexample: the claim as stated (including the empty string) is
false — for the empty topic the root's id and name are empty, so the
Validator rejects the generated graph at its very first node check. -/
theorem claim_c2_counterexample :
    validateGraphData (generateGenericGraphData "" (fun _ => 0)).toJ
      = .error .nodeMissingId := rfl

/-- C6: for every topic string and every sequence of random draws the
generator is a total function (the embedding is a Lean `def`, mirroring that
the source cannot throw: it only builds literals and pushes to arrays) whose
output has pairwise-distinct node ids. -/
theorem claim_c6_generic_ids_nodup (topic : String) (rand : Nat → Rat) :
    ((generateGenericGraphData topic rand).nodes.map GraphNode.id).Nodup :=
  genericIds_nodup topic rand

/-- C9: the Generic Generator always emits exactly 25 nodes (1 root, 6
concepts, 18 leaves) and 24 links (root to each concept, each concept to its
three leaves), whatever the topic and draws. -/
theorem claim_c9_generic_shape (topic : String) (rand : Nat → Rat) :
    (generateGenericGraphData topic rand).nodes.length = 25
  ∧ (generateGenericGraphData topic rand).links.length = 24 :=
  ⟨rfl, rfl⟩

/-- C7 (amended): the root id of the Generic Generator's output is the
normalized topic (lowercased, whitespace runs collapsed to hyphens — the
expression `topic.toLowerCase().replace(/\s+/g, '-')` both call sites
spell); `fetchGraphData` keys its template lookup by the same normalization,
so differently-spaced and differently-cased spellings of a template topic
behave identically; and normalization yields a non-empty id for every
NON-empty topic (the original claim's "regardless of the input string" fails
at the empty string). -/
theorem claim_c7_normalization (topic : String) (rand : Nat → Rat) :
    (generateGenericGraphData topic rand).nodes.head?.map GraphNode.id
        = some (normalizeTopic topic)
  ∧ (topic ≠ "" → normalizeTopic topic ≠ "")
  ∧ fetchGraphData "Machine Learning" rand = fetchGraphData "machine learning" rand
  ∧ normalizeTopic "  Quantum   Computing  " = "-quantum-computing-" :=
  ⟨rfl, fun h => normalizeTopic_ne_empty h, rfl, rfl⟩

/-- C7 witness: the amended claim applied at the topic `"Machine Learning"`,
discharging the non-emptiness hypothesis. -/
theorem claim_c7_witness : normalizeTopic "Machine Learning" ≠ "" :=
  (claim_c7_normalization "Machine Learning" (fun _ => 0)).2.1 (by decide)

/-- C7 counterexample: the claim as stated is false — the empty topic
normalizes to the empty string, which the generator then uses as the root id
and which the Validator rejects as invalid. -/
theorem claim_c7_counterexample :
    normalizeTopic "" = ""
  ∧ (generateGenericGraphData "" (fun _ => 0)).nodes.head?.map GraphNode.id = some ""
  ∧ validateGraphData (generateGenericGraphData "" (fun _ => 0)).toJ
      = .error .nodeMissingId :=
  ⟨rfl, rfl, rfl⟩

/-- C5 (amended): for every non-empty topic whose normalization misses the
Template Library, `fetchGraphData` returns the Generic Generator's graph; it
passes the Validator, its first node is the unique root (importance exactly
100, id the normalized topic, every other node strictly below 100), and
every node is reachable from the root along the links. -/
theorem claim_c5_generic_fetch (topic : String) (rand : Nat → Rat)
    (htopic : topic ≠ "")
    (hmiss : lookupTemplate (normalizeTopic topic) = none)
    (hrand : ∀ n, 0 ≤ rand n ∧ rand n < 1) :
    fetchGraphData topic rand = .ok (generateGenericGraphData topic rand)
  ∧ validateGraphData (generateGenericGraphData topic rand).toJ = .ok ()
  ∧ (∃ root rest, (generateGenericGraphData topic rand).nodes = root :: rest
      ∧ root.val = 100 ∧ root.id = normalizeTopic topic
      ∧ ∀ n ∈ rest, n.val < 100)
  ∧ (∀ n ∈ (generateGenericGraphData topic rand).nodes,
      ReachableFrom (generateGenericGraphData topic rand) (normalizeTopic topic) n.id) := by
  have hval := generateGeneric_validates topic rand htopic hrand
  refine ⟨?_, hval, ?_, genericReachable topic rand⟩
  · simp [fetchGraphData, hmiss, hval]
  · obtain ⟨root, rest, hsplit, hv100, hid⟩ :
        ∃ root rest, (generateGenericGraphData topic rand).nodes = root :: rest
          ∧ root.val = 100 ∧ root.id = normalizeTopic topic := by
      rw [generateGenericGraphData_eq]
      exact ⟨_, _, rfl, rfl, rfl⟩
    refine ⟨root, rest, hsplit, hv100, hid, ?_⟩
    intro n hn
    apply genericTailVals_lt topic rand hrand
    rw [hsplit]
    simpa using List.mem_map_of_mem GraphNode.val hn

/-- C5 witness: the amended claim at the concrete topic `"x"` (not a template
key) with the draws constantly one half. -/
theorem claim_c5_witness :
    fetchGraphData "x" (fun _ => 1 / 2) = .ok (generateGenericGraphData "x" (fun _ => 1 / 2))
  ∧ validateGraphData (generateGenericGraphData "x" (fun _ => 1 / 2)).toJ = .ok ()
  ∧ (∃ root rest, (generateGenericGraphData "x" (fun _ => 1 / 2)).nodes = root :: rest
      ∧ root.val = 100 ∧ root.id = normalizeTopic "x"
      ∧ ∀ n ∈ rest, n.val < 100)
  ∧ (∀ n ∈ (generateGenericGraphData "x" (fun _ => 1 / 2)).nodes,
      ReachableFrom (generateGenericGraphData "x" (fun _ => 1 / 2)) (normalizeTopic "x") n.id) :=
  claim_c5_generic_fetch "x" (fun _ => 1 / 2) (by decide) rfl
    (fun n => by constructor <;> norm_num)

/-- C5 counterexample: the claim as stated is false — the empty topic is not
a template key, yet `fetchGraphData` does not return a validating graph
there: the validation step rejects the generated graph (empty root id), so
the call throws. -/
theorem claim_c5_counterexample :
    fetchGraphData "" (fun _ => 0) = .error .nodeMissingId := rfl

/-- C8: the Validator enforces only that `category` is a non-empty string.
Replacing every node's category by arbitrary non-empty strings — in or out
of the documented enumeration — leaves the validation outcome unchanged. -/
theorem claim_c8_category_not_enumerated (g : GraphData) (f : GraphNode → String)
    (h : ∀ n ∈ g.nodes, f n ≠ "" ∧ n.category ≠ "") :
    validateGraphData ((g.withCategories f).toJ) = validateGraphData g.toJ :=
  validate_withCategories g f h

/-- C8 witness: a one-node graph whose category is turned into `"banana"`,
a value outside the documented enumeration, validates exactly as the
original (and both succeed). -/
theorem claim_c8_witness :
    validateGraphData
        ((GraphData.withCategories
            { nodes := [{ id := "a", name := "A", val := 50, category := "concept" }],
              links := [] }
            (fun _ => "banana")).toJ)
      = validateGraphData
          (GraphData.toJ
            { nodes := [{ id := "a", name := "A", val := 50, category := "concept" }],
              links := [] })
  ∧ validateGraphData
        (GraphData.toJ
          { nodes := [{ id := "a", name := "A", val := 50, category := "concept" }],
            links := [] }) = .ok () :=
  ⟨claim_c8_category_not_enumerated
      { nodes := [{ id := "a", name := "A", val := 50, category := "concept" }],
        links := [] }
      (fun _ => "banana")
      (fun n hn => by
        simp only [List.mem_singleton] at hn
        subst hn
        exact ⟨by decide, by decide⟩),
   rfl⟩

/-- C10: the Validator never inspects a link's value (strength) or label —
replacing them all by arbitrary runtime values (absent, non-numeric, however
large) never changes the outcome; and concretely a two-node graph whose
links carry a missing value, a string value and an oversized numeric value
passes, link acceptance resting only on endpoint resolution and membership. -/
theorem claim_c10_link_meta_ignored :
    (∀ (g : GraphData) (fv fl : GraphLink → Option JValue),
      validateGraphData ((g.withLinkMeta fv fl).toJ) = validateGraphData g.toJ)
  ∧ validateGraphData
      (GraphData.toJ
        { nodes := [{ id := "a", name := "A", val := 50, category := "concept" },
                    { id := "b", name := "B", val := 60, category := "concept" }],
          links := [{ source := .byId "a", target := .byId "b" },
                    { source := .byId "a", target := .byId "b",
                      value := some (.jstr "not a number"), label := some (.jnum 0) },
                    { source := .byId "b", target := .byId "a",
                      value := some (.jnum 123456789), label := none }] })
      = .ok () :=
  ⟨validate_withLinkMeta, rfl⟩

/-- C3 (amended): on every candidate whose nodes are not null and whose links
carry source/target fields resolving to strings or missing ids,
`validateGraphData` coincides exactly with the spec's ordered fail-fast
checker (containers, non-emptiness, per-node id then name then importance
then category with duplicate detection while iterating, then per-link
resolution and membership, success iff every check passes). Outside that
domain the code raises a bare TypeError instead of the specified diagnostic
(see the counterexample). -/
theorem claim_c3_ordered_checks (data : JValue) (h : wellBehavedData data = true) :
    validateGraphData data = specOrderedValidate data :=
  validateGraphData_eq_spec data h

/-- C3 witness: the equality at a concrete well-behaved candidate (one valid
node, no links). -/
theorem claim_c3_witness :
    validateGraphData
        (.jobj [("nodes", .jarr [.jobj [("id", .jstr "a"), ("name", .jstr "A"),
            ("val", .jnum 1), ("category", .jstr "c")]]), ("links", .jarr [])])
      = specOrderedValidate
          (.jobj [("nodes", .jarr [.jobj [("id", .jstr "a"), ("name", .jstr "A"),
              ("val", .jnum 1), ("category", .jstr "c")]]), ("links", .jarr [])]) :=
  claim_c3_ordered_checks _ (by decide)

/-- C3 counterexample: the claim as stated is false — on a candidate with one
valid node and one link that is an empty object, the code evaluates
`link.source.id` on `undefined` and throws a TypeError, not the specified
missing-endpoint diagnostic the spec's ordered checker produces. -/
theorem claim_c3_counterexample :
    validateGraphData
        (.jobj [("nodes", .jarr [.jobj [("id", .jstr "a"), ("name", .jstr "A"),
            ("val", .jnum 1), ("category", .jstr "c")]]),
          ("links", .jarr [.jobj []])])
      = .error .typeError
  ∧ specOrderedValidate
        (.jobj [("nodes", .jarr [.jobj [("id", .jstr "a"), ("name", .jstr "A"),
            ("val", .jnum 1), ("category", .jstr "c")]]),
          ("links", .jarr [.jobj []])])
      = .error .linkEndpointMissing
  ∧ (Except.error VError.typeError : Except VError Unit)
      ≠ .error .linkEndpointMissing :=
  ⟨rfl, rfl, by simp⟩

/-- C4 (amended): `parseGraphDataResponse` on the literal `{"nodes": []}`
fails with the Validator's missing-links structural error (the links
presence check precedes the empty-node check and the text has no links
field — not the empty-node error the claim names); on text that is not JSON
it fails with the wrapped SyntaxError; in general it fails with a ParseError
exactly when `JSON.parse` rejects the text, propagates the Validator's error
when the text parses but fails validation, and returns only values the
Validator accepts. -/
theorem claim_c4_parse :
    parseGraphDataResponse "\x7b\"nodes\": []\x7d" = .error (.validation .missingLinks)
  ∧ parseGraphDataResponse "not json"
      = .error (.invalidJson "Unexpected token n in JSON input")
  ∧ (∀ s, (∃ m, parseGraphDataResponse s = .error (.invalidJson m))
      ↔ (∃ m, jsonParse s = .error m))
  ∧ (∀ s v e, jsonParse s = .ok v → validateGraphData v = .error e →
      parseGraphDataResponse s = .error (.validation e))
  ∧ (∀ s v, parseGraphDataResponse s = .ok v →
      jsonParse s = .ok v ∧ validateGraphData v = .ok ()) := by
  refine ⟨rfl, rfl, ?_, ?_, ?_⟩
  · intro s
    constructor
    · rintro ⟨m, hm⟩
      cases hjs : jsonParse s with
      | error m2 => exact ⟨m2, rfl⟩
      | ok v =>
        rw [parseGraphDataResponse, hjs] at hm
        cases hv : validateGraphData v <;> simp [hv] at hm
    · rintro ⟨m, hm⟩
      exact ⟨m, by rw [parseGraphDataResponse, hm]⟩
  · intro s v e h1 h2
    rw [parseGraphDataResponse, h1]
    dsimp only
    rw [h2]
  · intro s v h
    cases hjs : jsonParse s with
    | error m => rw [parseGraphDataResponse, hjs] at h; exact absurd h (by simp)
    | ok w =>
      rw [parseGraphDataResponse, hjs] at h
      dsimp only at h
      cases hv : validateGraphData w with
      | error e => rw [hv] at h; exact absurd h (by simp)
      | ok u =>
        rw [hv] at h
        have hw : w = v := by simpa using h
        subst hw
        exact ⟨rfl, by rw [hv]⟩

/-- C4 witness: the parse-then-validate clause at the concrete text `"null"`
(valid JSON whose value the validator rejects — reading `.nodes` off `null`
raises). -/
theorem claim_c4_witness :
    parseGraphDataResponse "null" = .error (.validation .typeError) :=
  claim_c4_parse.2.2.2.1 "null" .jnull .typeError rfl rfl

/-- C4 counterexample: the claim as stated attributes the failure on
`{"nodes": []}` to the empty node set; the code in fact fails earlier, on the
absent links collection. -/
theorem claim_c4_counterexample :
    parseGraphDataResponse "\x7b\"nodes\": []\x7d" = .error (.validation .missingLinks)
  ∧ (Except.error (PError.validation VError.missingLinks) : Except PError JValue)
      ≠ .error (.validation .emptyNodes) :=
  ⟨rfl, by simp⟩

end VisualFlow
